import Mathlib

/-!
Verification development for `moe/views/schemas.py` (MOE request/response
contract-validation layer).

The source file declares colander schemas.  We embed the subset of colander
semantics those schemas exercise, shallowly and executably:

* cstructs/appstructs are modelled by `Moe.JsonValue`, the values produced by
  parsing a JSON payload plus Python `None` (constructor `pynone`).  JSON
  numbers arrive as numbers, so the (dead in this service) coercions of
  numeric *strings* by `colander.Int` / `colander.Float` are not modelled and
  are mapped to a validation error.
* Python floats are modelled by `Moe.PyFloat` (`nan`, signed infinities, and
  finite values as rationals) with IEEE-style ordering (`nan` incomparable).
* `colander.SchemaNode` becomes `Moe.SchemaNode`: a type, an optional
  validator, and an optional `missing` value (`none` = required).
* deserialization follows `colander.SchemaNode.deserialize`:
  the type's `deserialize` runs first (returning `colander.null` for absent or
  type-specific "empty" inputs), then a `missing` value is substituted for
  null *without running the validator*, otherwise the validator runs.
* `colander.Mapping` with `unknown='raise'` (the `StrictMappingSchema` base of
  every composite schema in the source) fails on any key not declared as a
  child; `unknown='preserve'` (used only by the childless `optimizer_parameters`
  and `optimizer_success` nodes) copies unknown keys into the result.
* Python `dict(...)` construction (last value wins, first-occurrence key order)
  is `Moe.toDict`; colander's `Mapping._validate` applies it to the input.

The recursion of the deserializer is indexed by fuel that strictly exceeds the
schema's nesting depth (`sizeOf` of the schema is used, which dominates the
depth), so all definitions compute by kernel reduction.
-/

namespace Moe

/-- Python float values: NaN, the two infinities, and finite values
(modelled as rationals). -/
inductive PyFloat where
  | nan : PyFloat
  | inf : PyFloat
  | ninf : PyFloat
  | fin (q : Rat) : PyFloat
deriving DecidableEq, Repr

namespace PyFloat

/-- IEEE `<` on Python floats: `nan` is incomparable to everything. -/
def lt : PyFloat → PyFloat → Bool
  | nan, _ => false
  | _, nan => false
  | ninf, ninf => false
  | ninf, _ => true
  | _, ninf => false
  | inf, _ => false
  | fin _, inf => true
  | fin a, fin b => a < b

/-- The Python float literal `0.0`. -/
def zero : PyFloat := fin 0

end PyFloat

mutual

/-- Values flowing through the validation layer: the results of parsing a JSON
payload, plus Python `None` (`pynone`), which colander inserts as a `missing`
sentinel and which can also appear in payloads (JSON `null`). -/
inductive JsonValue where
  | pynone : JsonValue
  | bool (b : Bool) : JsonValue
  | int (n : Int) : JsonValue
  | float (x : PyFloat) : JsonValue
  | str (s : String) : JsonValue
  | arr (elems : JsonList) : JsonValue
  | obj (entries : JsonObj) : JsonValue
deriving DecidableEq, Repr

/-- A JSON array's elements. -/
inductive JsonList where
  | nil : JsonList
  | cons (head : JsonValue) (tail : JsonList) : JsonList
deriving DecidableEq, Repr

/-- A JSON object / Python dict as an ordered association list. -/
inductive JsonObj where
  | nil : JsonObj
  | cons (key : String) (value : JsonValue) (rest : JsonObj) : JsonObj
deriving DecidableEq, Repr

end

/-- Build a `JsonList` from a Lean list (payload-literal convenience). -/
def JsonList.ofList : List JsonValue → JsonList
  | [] => .nil
  | x :: xs => .cons x (JsonList.ofList xs)

/-- Build a `JsonObj` from a Lean list (payload-literal convenience). -/
def JsonObj.ofList : List (String × JsonValue) → JsonObj
  | [] => .nil
  | (k, v) :: rest => .cons k v (JsonObj.ofList rest)

/-- JSON array literal. -/
def jarr (l : List JsonValue) : JsonValue := .arr (JsonList.ofList l)

/-- JSON object literal. -/
def jobj (l : List (String × JsonValue)) : JsonValue := .obj (JsonObj.ofList l)

namespace JsonObj

/-- The keys of an object, in order. -/
def keys : JsonObj → List String
  | nil => []
  | cons k _ rest => k :: rest.keys

/-- Whether a key occurs in the object. -/
def hasKey : JsonObj → String → Bool
  | nil, _ => false
  | cons k _ rest, key => k == key || rest.hasKey key

/-- First value stored under a key. -/
def get : JsonObj → String → Option JsonValue
  | nil, _ => Option.none
  | cons k v rest, key => if k == key then Option.some v else rest.get key

/-- Replace the value under an existing key, keeping its position. -/
def setKey : JsonObj → String → JsonValue → JsonObj
  | nil, _, _ => nil
  | cons k v rest, key, newv =>
    if k == key then cons k newv rest else cons k v (rest.setKey key newv)

/-- Remove every entry with the given key (`cstruct.pop(name, null)`). -/
def removeKey : JsonObj → String → JsonObj
  | nil, _ => nil
  | cons k v rest, key =>
    if k == key then rest.removeKey key else cons k v (rest.removeKey key)

/-- Concatenation of entry lists. -/
def append : JsonObj → JsonObj → JsonObj
  | nil, d => d
  | cons k v rest, d => cons k v (rest.append d)

/-- Whether the object has no entries. -/
def isEmpty : JsonObj → Bool
  | nil => true
  | cons _ _ _ => false

end JsonObj

/-- Insert into a Python dict: an existing key keeps its position and takes the
new value, a new key is appended. -/
def dictInsert (d : JsonObj) (k : String) (v : JsonValue) : JsonObj :=
  if d.hasKey k then d.setKey k v else d.append (.cons k v .nil)

/-- Tail of `toDict`: fold the remaining entries into the accumulated dict. -/
def toDictAux : JsonObj → JsonObj → JsonObj
  | acc, .nil => acc
  | acc, .cons k v rest => toDictAux (dictInsert acc k v) rest

/-- Python `dict(entries)`: last value per key wins, keys ordered by first
occurrence.  colander's `Mapping._validate` applies this to every mapping
cstruct. -/
def toDict (l : JsonObj) : JsonObj := toDictAux .nil l

namespace JsonValue

/-- Python truthiness (`not cstruct` in colander's type guards): `None`,
`False`, zero, the empty string, and empty containers are falsy; `nan` is
truthy. -/
def falsy : JsonValue → Bool
  | pynone => true
  | bool b => !b
  | int n => n == 0
  | float x => x == PyFloat.zero
  | str s => s == ""
  | arr .nil => true
  | arr (.cons _ _) => false
  | obj l => l.isEmpty

/-- Python `cstruct == 0` (the guard `cstruct != 0 and not cstruct` of
`colander.Number.deserialize`): `0`, `0.0` and `False` compare equal to `0`. -/
def eqZero : JsonValue → Bool
  | int n => n == 0
  | float x => x == PyFloat.zero
  | bool b => !b
  | _ => false

end JsonValue

/-- The single error kind of the layer (`colander.Invalid`); the claims only
distinguish success from failure, so the message is not carried. -/
inductive Err where
  | invalid : Err
deriving DecidableEq, Repr

/-- The validators attached by the source file: `colander.Range` on ints and
floats (a bound passes unless the value compares strictly beyond it, so with
IEEE comparisons `nan` passes `Range`), `colander.OneOf` on strings, and the
custom `PositiveFloat.validator` (`0.0 < cstruct < float('inf')`). -/
inductive Validator where
  | noValidator : Validator
  | rangeInt (lo hi : Option Int) : Validator
  | rangeFloat (lo hi : Option PyFloat) : Validator
  | oneOf (choices : List String) : Validator
  | positiveFloat : Validator
deriving DecidableEq, Repr

/-- Run a validator on an appstruct; `true` means no `Invalid` is raised.
The range/oneOf arms only match the value shape their node type produces
(colander `Int` nodes yield ints, etc.); other shapes are unreachable. -/
def Validator.run : Validator → JsonValue → Bool
  | .noValidator, _ => true
  | .rangeInt lo hi, .int n =>
      (lo.all fun m => !(n < m)) && (hi.all fun m => !(m < n))
  | .rangeInt _ _, _ => false
  | .rangeFloat lo hi, .float x =>
      (lo.all fun m => !(PyFloat.lt x m)) && (hi.all fun m => !(PyFloat.lt m x))
  | .rangeFloat _ _, _ => false
  | .oneOf choices, .str s => choices.contains s
  | .oneOf _, _ => false
  | .positiveFloat, .float x =>
      PyFloat.lt PyFloat.zero x && PyFloat.lt x PyFloat.inf
  | .positiveFloat, _ => false

mutual

/-- The colander schema types used by the source: `Int`, `Float`, `String`,
the childless `Mapping(unknown='preserve')` of `optimizer_parameters` and
`optimizer_success`, `Sequence`, and `Mapping(unknown='raise')` (the
`StrictMappingSchema` base) with its declared children in declaration
order. -/
inductive SchemaType where
  | int : SchemaType
  | float : SchemaType
  | str : SchemaType
  | mappingPreserveFree : SchemaType
  | seq (elem : SchemaNode) : SchemaType
  | strictMapping (children : SchemaChildren) : SchemaType

/-- The named children of a mapping schema, in declaration order. -/
inductive SchemaChildren where
  | nil : SchemaChildren
  | cons (name : String) (child : SchemaNode) (rest : SchemaChildren) :
      SchemaChildren

/-- A `colander.SchemaNode`: its type, its validator, and its `missing`
value (`none` means required, mirroring `colander.required`). -/
inductive SchemaNode where
  | mk (typ : SchemaType) (validator : Validator) (missing : Option JsonValue) :
      SchemaNode

end

mutual

/-- Nesting depth of a schema node: the fuel the deserializer consumes on the
deepest path. -/
def SchemaNode.depth : SchemaNode → Nat
  | .mk t _ _ => t.depth + 1

/-- Nesting depth contributed by a schema type. -/
def SchemaType.depth : SchemaType → Nat
  | .int => 0
  | .float => 0
  | .str => 0
  | .mappingPreserveFree => 0
  | .seq elem => elem.depth
  | .strictMapping children => children.depth

/-- Nesting depth of the deepest child of a mapping. -/
def SchemaChildren.depth : SchemaChildren → Nat
  | .nil => 0
  | .cons _ child rest => max child.depth rest.depth

end

/-- Build mapping children from a Lean list (schema-literal convenience). -/
def SchemaChildren.ofList : List (String × SchemaNode) → SchemaChildren
  | [] => .nil
  | (name, child) :: rest => .cons name child (SchemaChildren.ofList rest)

/-- The declared child names, in declaration order. -/
def SchemaChildren.names : SchemaChildren → List String
  | .nil => []
  | .cons name _ rest => name :: rest.names

/-- Deserialize each element of a sequence cstruct, stopping at the first
`Invalid` (`colander.Sequence._impl`). -/
def exceptMap (f : JsonValue → Except Err JsonValue) :
    JsonList → Except Err JsonList
  | .nil => .ok .nil
  | .cons x xs =>
    match f x with
    | .error e => .error e
    | .ok y =>
      match exceptMap f xs with
      | .error e => .error e
      | .ok ys => .ok (.cons y ys)

/-- `colander.Mapping._impl`'s child loop: pop each declared child's key from
the dict (absent means `colander.null`), deserialize it with `f`, and return
the results in child order together with the leftover (undeclared) entries. -/
def runChildren (f : SchemaNode → Option JsonValue → Except Err JsonValue) :
    SchemaChildren → JsonObj → Except Err (JsonObj × JsonObj)
  | .nil, d => .ok (.nil, d)
  | .cons name child rest, d =>
    match f child (d.get name) with
    | .error e => .error e
    | .ok w =>
      match runChildren f rest (d.removeKey name) with
      | .error e => .error e
      | .ok (entries, leftover) => .ok (.cons name w entries, leftover)

/-- One colander type's `deserialize` (`f` deserializes subnodes): the input
`Option.none` is `colander.null`, and a returned `Option.none` is the null
each type hands back for absent/"empty" inputs, to be resolved against the
node's `missing` by `deserializeNodeF`. -/
def deserializeTypeF (f : SchemaNode → Option JsonValue → Except Err JsonValue)
    (t : SchemaType) (cstruct : Option JsonValue) :
    Except Err (Option JsonValue) :=
  match cstruct with
  | Option.none => .ok Option.none
  | Option.some v =>
    match t with
    | .int =>
      -- colander.Number: `if cstruct != 0 and not cstruct: return null`,
      -- then `int(cstruct)` (floats truncate toward zero, bools become 0/1).
      if !v.eqZero && v.falsy then .ok Option.none
      else
        match v with
        | .int n => .ok (Option.some (.int n))
        | .bool b => .ok (Option.some (.int (if b then 1 else 0)))
        | .float (.fin q) =>
            .ok (Option.some (.int (if q < 0 then ⌈q⌉ else ⌊q⌋)))
        | _ => .error .invalid
    | .float =>
      if !v.eqZero && v.falsy then .ok Option.none
      else
        match v with
        | .float x => .ok (Option.some (.float x))
        | .int n => .ok (Option.some (.float (.fin n)))
        | .bool b => .ok (Option.some (.float (.fin (if b then 1 else 0))))
        | _ => .error .invalid
    | .str =>
      -- colander.String: `if not cstruct: return null`, then only text passes.
      if v.falsy then .ok Option.none
      else
        match v with
        | .str s => .ok (Option.some (.str s))
        | _ => .error .invalid
    | .mappingPreserveFree =>
      -- Mapping(unknown='preserve') with no children: dict the input and
      -- preserve every key.
      match v with
      | .obj l => .ok (Option.some (.obj (toDict l)))
      | _ => .error .invalid
    | .seq elem =>
      match v with
      | .arr xs =>
        match exceptMap (fun x => f elem (Option.some x)) xs with
        | .error e => .error e
        | .ok ys => .ok (Option.some (.arr ys))
      | _ => .error .invalid
    | .strictMapping children =>
      match v with
      | .obj l =>
        match runChildren f children (toDict l) with
        | .error e => .error e
        | .ok (entries, leftover) =>
          -- unknown='raise': any leftover key is an error.
          if leftover.isEmpty then .ok (Option.some (.obj entries))
          else .error .invalid
      | _ => .error .invalid

/-- `colander.SchemaNode.deserialize`, indexed by fuel consumed once per
nesting level: run the type, substitute `missing` for null (required fields
error; `missing` values bypass the validator), otherwise validate. -/
def deserializeNodeF : Nat → SchemaNode → Option JsonValue →
    Except Err JsonValue
  | 0, _, _ => .error .invalid
  | fuel + 1, .mk t valr miss, cstruct =>
    match deserializeTypeF (deserializeNodeF fuel) t cstruct with
    | .error e => .error e
    | .ok Option.none =>
      match miss with
      | Option.some d => .ok d
      | Option.none => .error .invalid
    | .ok (Option.some a) => if valr.run a then .ok a else .error .invalid

/-- Deserialization of a cstruct against a schema node, with exactly the fuel
the schema's nesting depth requires (each nesting level consumes one unit, so
the fuel never runs out). -/
def deserializeNode (n : SchemaNode) (cstruct : Option JsonValue) :
    Except Err JsonValue :=
  deserializeNodeF n.depth n cstruct

/-- Whether deserialization succeeded. -/
def isOk : Except Err JsonValue → Bool
  | .ok _ => true
  | .error _ => false

/-! Constants imported by the source from `moe.optimal_learning.python.constant`
(that module is not part of the shown repository slice, so the values are
modelled from the spec and from the docstrings of `moe/views/schemas.py`). -/

/-- Modelled from the spec: the default domain type (`"tensor_product"`, spec
§3 and the source's example requests). -/
def TENSOR_PRODUCT_DOMAIN_TYPE : String := "tensor_product"

/-- Modelled from the spec: the default covariance type
(`"square_exponential"`, spec §3 and the source's example requests). -/
def SQUARE_EXPONENTIAL_COVARIANCE_TYPE : String := "square_exponential"

/-- Modelled from the spec: the gradient-descent optimizer tag (source example
request, line 469). -/
def GRADIENT_DESCENT_OPTIMIZER : String := "gradient_descent_optimizer"

/-- Modelled from the spec: the Newton optimizer tag (source example request,
line 768). -/
def NEWTON_OPTIMIZER : String := "newton_optimizer"

/-- Modelled from the spec: the null-optimizer tag (spec §4.4's dispatch
table; the exact string is not shown in the slice). -/
def NULL_OPTIMIZER : String := "null_optimizer"

/-- Modelled from the spec: the enumeration of domain types.  Only the default
member is documented; no claim depends on further members. -/
def DOMAIN_TYPES : List String := [TENSOR_PRODUCT_DOMAIN_TYPE]

/-- Modelled from the spec: the enumeration of optimizer types (the three tags
of spec §4.4's dispatch table). -/
def OPTIMIZER_TYPES : List String :=
  [NULL_OPTIMIZER, NEWTON_OPTIMIZER, GRADIENT_DESCENT_OPTIMIZER]

/-- Modelled from the spec: the enumeration of covariance types.  Only the
default member is documented; no claim depends on further members. -/
def COVARIANCE_TYPES : List String := [SQUARE_EXPONENTIAL_COVARIANCE_TYPE]

/-- Modelled from the spec: the default (and only documented) constant-liar
method (source docstring, line 521). -/
def DEFAULT_CONSTANT_LIAR_METHOD : String := "constant_liar_min"

/-- Modelled from the spec: the enumeration of constant-liar methods.  Only
the default member is documented; no claim depends on further members. -/
def CONSTANT_LIAR_METHODS : List String := [DEFAULT_CONSTANT_LIAR_METHOD]

/-- Modelled from the spec: the log-marginal-likelihood tag (spec §6). -/
def LOG_MARGINAL_LIKELIHOOD : String := "log_marginal_likelihood"

/-- Modelled from the spec: the enumeration of likelihood types.  Only the
default member is documented; no claim depends on further members. -/
def LIKELIHOOD_TYPES : List String := [LOG_MARGINAL_LIKELIHOOD]

/-- Modelled from the spec: the default for `max_num_threads` (source
docstring, line 1120: "maximum number of threads to use in computation
(default: 1)"). -/
def DEFAULT_MAX_NUM_THREADS : Int := 1

/-- Modelled from the spec: the inclusive upper bound for `max_num_threads`.
The spec gives no value; no claim depends on it beyond it admitting the
default. -/
def MAX_ALLOWED_NUM_THREADS : Int := 10000

/-- Modelled from the spec: the default for `mc_iterations` (spec §6:
`mc_iterations:int≥1=10000(default const)`). -/
def DEFAULT_EXPECTED_IMPROVEMENT_MC_ITERATIONS : Int := 10000

/-- Modelled from the spec: the default `lie_noise_variance` (source
docstring, line 523: "(default: 0.0)"). -/
def DEFAULT_CONSTANT_LIAR_LIE_NOISE_VARIANCE : PyFloat := PyFloat.zero

/-- Modelled from the spec: the default `kriging_noise_variance` (source
docstring, line 587: "(default: 0.0)"). -/
def DEFAULT_KRIGING_NOISE_VARIANCE : PyFloat := PyFloat.zero

/-- Modelled from the spec: the default `std_deviation_coef` (source
docstring, line 586: "(default: 0.0)"). -/
def DEFAULT_KRIGING_STD_DEVIATION_COEF : PyFloat := PyFloat.zero

/-! The schemas of `moe/views/schemas.py`, in source order.  A
`StrictMappingSchema` subclass becomes a node whose type is
`strictMapping` over its fields in declaration order (colander collects
inherited fields first, matching their earlier creation counters).  An
instantiation argument `missing=...` becomes `withMissing`. -/

/-- Copy of a schema node with an instantiation-time `missing` value. -/
def SchemaNode.withMissing : SchemaNode → JsonValue → SchemaNode
  | .mk t v _, d => .mk t v (Option.some d)

/-- A `StrictMappingSchema` (mapping in `unknown='raise'` mode) with the given
fields. -/
def strictOf (fields : List (String × SchemaNode)) : SchemaNode :=
  .mk (.strictMapping (.ofList fields)) .noValidator Option.none

/-- `PositiveFloat`: a float node with the custom positive-finite
validator. -/
def PositiveFloat : SchemaNode := .mk .float .positiveFloat Option.none

/-- `ListOfPositiveFloats`. -/
def ListOfPositiveFloats : SchemaNode :=
  .mk (.seq PositiveFloat) .noValidator Option.none

/-- `ListOfFloats`. -/
def ListOfFloats : SchemaNode :=
  .mk (.seq (.mk .float .noValidator Option.none)) .noValidator Option.none

/-- `SinglePoint`: `point`, `value`, and `value_var` (≥ 0.0, default 0.0). -/
def SinglePoint : SchemaNode := strictOf [
  ("point", ListOfFloats),
  ("value", .mk .float .noValidator Option.none),
  ("value_var", .mk .float (.rangeFloat (Option.some PyFloat.zero) Option.none)
      (Option.some (.float PyFloat.zero)))]

/-- `PointsSampled`: a list of `SinglePoint`. -/
def PointsSampled : SchemaNode := .mk (.seq SinglePoint) .noValidator Option.none

/-- `DomainCoordinate`: a single domain interval, `min` and `max` floats with
no validator. -/
def DomainCoordinate : SchemaNode := strictOf [
  ("min", .mk .float .noValidator Option.none),
  ("max", .mk .float .noValidator Option.none)]

/-- `Domain`: a list of `DomainCoordinate`. -/
def Domain : SchemaNode := .mk (.seq DomainCoordinate) .noValidator Option.none

/-- The fields of `DomainInfo` (shared with `BoundedDomainInfo`). -/
def DomainInfoFields : List (String × SchemaNode) := [
  ("domain_type", .mk .str (.oneOf DOMAIN_TYPES)
      (Option.some (.str TENSOR_PRODUCT_DOMAIN_TYPE))),
  ("dim", .mk .int (.rangeInt (Option.some 0) Option.none) Option.none)]

/-- `DomainInfo`: optional `domain_type` (default tensor-product), required
`dim ≥ 0`. -/
def DomainInfo : SchemaNode := strictOf DomainInfoFields

/-- `BoundedDomainInfo`: `DomainInfo` plus required `domain_bounds`. -/
def BoundedDomainInfo : SchemaNode :=
  strictOf (DomainInfoFields ++ [("domain_bounds", Domain)])

/-- `GradientDescentParametersSchema`. -/
def GradientDescentParametersSchema : SchemaNode := strictOf [
  ("max_num_steps", .mk .int (.rangeInt (Option.some 1) Option.none)
      Option.none),
  ("max_num_restarts", .mk .int (.rangeInt (Option.some 1) Option.none)
      Option.none),
  ("num_steps_averaged", .mk .int (.rangeInt (Option.some 0) Option.none)
      Option.none),
  ("gamma", .mk .float (.rangeFloat (Option.some PyFloat.zero) Option.none)
      Option.none),
  ("pre_mult", .mk .float (.rangeFloat (Option.some PyFloat.zero) Option.none)
      Option.none),
  ("max_relative_change", .mk .float
      (.rangeFloat (Option.some PyFloat.zero) (Option.some (.fin 1)))
      Option.none),
  ("tolerance", .mk .float (.rangeFloat (Option.some PyFloat.zero) Option.none)
      Option.none)]

/-- `NewtonParametersSchema` (note the gamma lower bound 1.0 and the
time-factor lower bound 1.0e-16). -/
def NewtonParametersSchema : SchemaNode := strictOf [
  ("max_num_steps", .mk .int (.rangeInt (Option.some 1) Option.none)
      Option.none),
  ("gamma", .mk .float (.rangeFloat (Option.some (.fin 1)) Option.none)
      Option.none),
  ("time_factor", .mk .float
      (.rangeFloat (Option.some (.fin (mkRat 1 (10 ^ 16)))) Option.none)
      Option.none),
  ("max_relative_change", .mk .float
      (.rangeFloat (Option.some PyFloat.zero) (Option.some (.fin 1)))
      Option.none),
  ("tolerance", .mk .float (.rangeFloat (Option.some PyFloat.zero) Option.none)
      Option.none)]

/-- `NullParametersSchema`: a strict mapping with no fields. -/
def NullParametersSchema : SchemaNode := strictOf []

/-- `CovarianceInfo`: optional `covariance_type` (default square-exponential),
`hyperparameters` with `missing=None`. -/
def CovarianceInfo : SchemaNode := strictOf [
  ("covariance_type", .mk .str (.oneOf COVARIANCE_TYPES)
      (Option.some (.str SQUARE_EXPONENTIAL_COVARIANCE_TYPE))),
  ("hyperparameters", ListOfPositiveFloats.withMissing .pynone)]

/-- `GpHistoricalInfo`: required `points_sampled`. -/
def GpHistoricalInfo : SchemaNode := strictOf [
  ("points_sampled", PointsSampled)]

/-- `ListOfPointsInDomain`: a list of lists of floats. -/
def ListOfPointsInDomain : SchemaNode :=
  .mk (.seq ListOfFloats) .noValidator Option.none

/-- `ListOfExpectedImprovements`: floats all ≥ 0.0. -/
def ListOfExpectedImprovements : SchemaNode :=
  .mk (.seq (.mk .float (.rangeFloat (Option.some PyFloat.zero) Option.none)
      Option.none)) .noValidator Option.none

/-- `MatrixOfFloats`: a 2d list of floats. -/
def MatrixOfFloats : SchemaNode :=
  .mk (.seq ListOfFloats) .noValidator Option.none

/-- `OPTIMIZER_TYPES_TO_SCHEMA_CLASSES`: the optimizer-type tag to
parameter-schema dispatch table. -/
def OPTIMIZER_TYPES_TO_SCHEMA_CLASSES : List (String × SchemaNode) := [
  (NULL_OPTIMIZER, NullParametersSchema),
  (NEWTON_OPTIMIZER, NewtonParametersSchema),
  (GRADIENT_DESCENT_OPTIMIZER, GradientDescentParametersSchema)]

/-- The `optimizer_parameters` node of `OptimizerInfo`:
`colander.Mapping(unknown='preserve')` with `missing=None` and no declared
children (its contents are NOT validated by this schema). -/
def OptimizerParametersNode : SchemaNode :=
  .mk .mappingPreserveFree .noValidator (Option.some .pynone)

/-- `OptimizerInfo`: every field optional with `missing=None` (the real
defaults are context-dependent and resolved by the caller). -/
def OptimizerInfo : SchemaNode := strictOf [
  ("optimizer_type", .mk .str (.oneOf OPTIMIZER_TYPES)
      (Option.some .pynone)),
  ("num_multistarts", .mk .int (.rangeInt (Option.some 1) Option.none)
      (Option.some .pynone)),
  ("num_random_samples", .mk .int (.rangeInt (Option.some 0) Option.none)
      (Option.some .pynone)),
  ("optimizer_parameters", OptimizerParametersNode)]

/-- The value of `CovarianceInfo().deserialize({})`, used as the `missing` of
`covariance_info` fields in the request schemas. -/
def CovarianceInfoDefault : JsonValue :=
  match deserializeNode CovarianceInfo (Option.some (jobj [])) with
  | .ok v => v
  | .error _ => .pynone

/-- The value of `OptimizerInfo().deserialize({})`, used as the `missing` of
`optimizer_info` fields in the request schemas. -/
def OptimizerInfoDefault : JsonValue :=
  match deserializeNode OptimizerInfo (Option.some (jobj [])) with
  | .ok v => v
  | .error _ => .pynone

/-- The `mc_iterations` field shared by `GpNextPointsRequest` and
`GpEiRequest`. -/
def McIterationsNode : SchemaNode :=
  .mk .int (.rangeInt (Option.some 1) Option.none)
    (Option.some (.int DEFAULT_EXPECTED_IMPROVEMENT_MC_ITERATIONS))

/-- The `max_num_threads` field shared by the request schemas. -/
def MaxNumThreadsNode : SchemaNode :=
  .mk .int (.rangeInt (Option.some 1) (Option.some MAX_ALLOWED_NUM_THREADS))
    (Option.some (.int DEFAULT_MAX_NUM_THREADS))

/-- The fields of `GpNextPointsRequest` (shared with its constant-liar and
kriging extensions). -/
def GpNextPointsRequestFields : List (String × SchemaNode) := [
  ("num_to_sample", .mk .int (.rangeInt (Option.some 1) Option.none)
      (Option.some (.int 1))),
  ("mc_iterations", McIterationsNode),
  ("max_num_threads", MaxNumThreadsNode),
  ("gp_historical_info", GpHistoricalInfo),
  ("domain_info", BoundedDomainInfo),
  ("covariance_info", CovarianceInfo.withMissing CovarianceInfoDefault),
  ("optimizer_info", OptimizerInfo.withMissing OptimizerInfoDefault),
  ("points_being_sampled", ListOfPointsInDomain.withMissing (jarr []))]

/-- `GpNextPointsRequest`. -/
def GpNextPointsRequest : SchemaNode := strictOf GpNextPointsRequestFields

/-- `GpNextPointsConstantLiarRequest`: the base request plus lie fields. -/
def GpNextPointsConstantLiarRequest : SchemaNode :=
  strictOf (GpNextPointsRequestFields ++ [
    ("lie_method", .mk .str (.oneOf CONSTANT_LIAR_METHODS)
        (Option.some (.str DEFAULT_CONSTANT_LIAR_METHOD))),
    ("lie_value", .mk .float .noValidator (Option.some .pynone)),
    ("lie_noise_variance", .mk .float
        (.rangeFloat (Option.some PyFloat.zero) Option.none)
        (Option.some (.float DEFAULT_CONSTANT_LIAR_LIE_NOISE_VARIANCE)))])

/-- `GpNextPointsKrigingRequest`: the base request plus kriging fields. -/
def GpNextPointsKrigingRequest : SchemaNode :=
  strictOf (GpNextPointsRequestFields ++ [
    ("std_deviation_coef", .mk .float .noValidator
        (Option.some (.float DEFAULT_KRIGING_STD_DEVIATION_COEF))),
    ("kriging_noise_variance", .mk .float
        (.rangeFloat (Option.some PyFloat.zero) Option.none)
        (Option.some (.float DEFAULT_KRIGING_NOISE_VARIANCE)))])

/-- The `optimizer_success` node of the status schemas:
`colander.Mapping(unknown='preserve')`, no declared children, no `missing`
(its `default=` argument only affects serialization, not deserialization). -/
def OptimizerSuccessNode : SchemaNode :=
  .mk .mappingPreserveFree .noValidator Option.none

/-- `GpNextPointsStatus`. -/
def GpNextPointsStatus : SchemaNode := strictOf [
  ("expected_improvement", .mk .float
      (.rangeFloat (Option.some PyFloat.zero) Option.none) Option.none),
  ("optimizer_success", OptimizerSuccessNode)]

/-- `GpNextPointsResponse`. -/
def GpNextPointsResponse : SchemaNode := strictOf [
  ("endpoint", .mk .str .noValidator Option.none),
  ("points_to_sample", ListOfPointsInDomain),
  ("status", GpNextPointsStatus)]

/-- `GpHyperOptRequest`. -/
def GpHyperOptRequest : SchemaNode := strictOf [
  ("max_num_threads", MaxNumThreadsNode),
  ("gp_historical_info", GpHistoricalInfo),
  ("domain_info", DomainInfo),
  ("covariance_info", CovarianceInfo.withMissing CovarianceInfoDefault),
  ("hyperparameter_domain_info", BoundedDomainInfo),
  ("optimizer_info", OptimizerInfo.withMissing OptimizerInfoDefault),
  ("log_likelihood_info", .mk .str (.oneOf LIKELIHOOD_TYPES)
      (Option.some (.str LOG_MARGINAL_LIKELIHOOD)))]

/-- `GpHyperOptStatus`. -/
def GpHyperOptStatus : SchemaNode := strictOf [
  ("log_likelihood", .mk .float .noValidator Option.none),
  ("grad_log_likelihood", ListOfFloats),
  ("optimizer_success", OptimizerSuccessNode)]

/-- `GpHyperOptResponse`. -/
def GpHyperOptResponse : SchemaNode := strictOf [
  ("endpoint", .mk .str .noValidator Option.none),
  ("covariance_info", CovarianceInfo),
  ("status", GpHyperOptStatus)]

/-- `GpMeanVarRequest` (note: `domain_info` is declared without `missing`,
hence required). -/
def GpMeanVarRequest : SchemaNode := strictOf [
  ("points_to_sample", ListOfPointsInDomain),
  ("gp_historical_info", GpHistoricalInfo),
  ("domain_info", DomainInfo),
  ("covariance_info", CovarianceInfo.withMissing CovarianceInfoDefault)]

/-- The single field of `GpEndpointResponse`. -/
def GpEndpointResponseFields : List (String × SchemaNode) := [
  ("endpoint", .mk .str .noValidator Option.none)]

/-- The single field of `GpMeanMixinResponse`. -/
def GpMeanMixinResponseFields : List (String × SchemaNode) := [
  ("mean", ListOfFloats)]

/-- The single field of `GpVarMixinResponse`. -/
def GpVarMixinResponseFields : List (String × SchemaNode) := [
  ("var", MatrixOfFloats)]

/-- The single field of `GpVarDiagMixinResponse`. -/
def GpVarDiagMixinResponseFields : List (String × SchemaNode) := [
  ("var", ListOfFloats)]

/-- `GpEndpointResponse`. -/
def GpEndpointResponse : SchemaNode := strictOf GpEndpointResponseFields

/-- `GpMeanMixinResponse`. -/
def GpMeanMixinResponse : SchemaNode := strictOf GpMeanMixinResponseFields

/-- `GpVarMixinResponse`. -/
def GpVarMixinResponse : SchemaNode := strictOf GpVarMixinResponseFields

/-- `GpVarDiagMixinResponse`. -/
def GpVarDiagMixinResponse : SchemaNode := strictOf GpVarDiagMixinResponseFields

/-- The fields of `GpMeanResponse = (GpEndpointResponse, GpMeanMixinResponse)`
(colander gathers inherited fields by creation counter: `endpoint` precedes
`mean`). -/
def GpMeanResponseFields : List (String × SchemaNode) :=
  GpEndpointResponseFields ++ GpMeanMixinResponseFields

/-- `GpMeanResponse`. -/
def GpMeanResponse : SchemaNode := strictOf GpMeanResponseFields

/-- `GpVarResponse = (GpEndpointResponse, GpVarMixinResponse)`. -/
def GpVarResponse : SchemaNode :=
  strictOf (GpEndpointResponseFields ++ GpVarMixinResponseFields)

/-- `GpVarDiagResponse = (GpEndpointResponse, GpVarDiagMixinResponse)`. -/
def GpVarDiagResponse : SchemaNode :=
  strictOf (GpEndpointResponseFields ++ GpVarDiagMixinResponseFields)

/-- `GpMeanVarResponse = (GpMeanResponse, GpVarMixinResponse)`: the diamond
composition resolves to `endpoint`, `mean`, `var` by creation counter. -/
def GpMeanVarResponse : SchemaNode :=
  strictOf (GpMeanResponseFields ++ GpVarMixinResponseFields)

/-- `GpMeanVarDiagResponse = (GpMeanResponse, GpVarDiagMixinResponse)`. -/
def GpMeanVarDiagResponse : SchemaNode :=
  strictOf (GpMeanResponseFields ++ GpVarDiagMixinResponseFields)

/-- `GpEiRequest` (note: `domain_info` is declared without `missing`, hence
required). -/
def GpEiRequest : SchemaNode := strictOf [
  ("points_to_evaluate", ListOfPointsInDomain),
  ("points_being_sampled", ListOfPointsInDomain.withMissing (jarr [])),
  ("mc_iterations", McIterationsNode),
  ("max_num_threads", MaxNumThreadsNode),
  ("gp_historical_info", GpHistoricalInfo),
  ("domain_info", DomainInfo),
  ("covariance_info", CovarianceInfo.withMissing CovarianceInfoDefault)]

/-- `GpEiResponse`. -/
def GpEiResponse : SchemaNode := strictOf [
  ("endpoint", .mk .str .noValidator Option.none),
  ("expected_improvement", ListOfExpectedImprovements)]

/-! Derived notions used to state and settle the claims. -/

/-- Every composite (mapping) schema declared by the source file. -/
def compositeSchemas : List SchemaNode := [
  SinglePoint, DomainCoordinate, DomainInfo, BoundedDomainInfo,
  GradientDescentParametersSchema, NewtonParametersSchema, NullParametersSchema,
  CovarianceInfo, GpHistoricalInfo, OptimizerInfo,
  GpNextPointsRequest, GpNextPointsConstantLiarRequest,
  GpNextPointsKrigingRequest, GpNextPointsStatus, GpNextPointsResponse,
  GpHyperOptRequest, GpHyperOptStatus, GpHyperOptResponse,
  GpMeanVarRequest, GpEndpointResponse, GpMeanMixinResponse,
  GpVarMixinResponse, GpVarDiagMixinResponse, GpMeanResponse, GpVarResponse,
  GpVarDiagResponse, GpMeanVarResponse, GpMeanVarDiagResponse,
  GpEiRequest, GpEiResponse]

/-- The request schemas of the source file. -/
def requestSchemas : List SchemaNode := [
  GpNextPointsRequest, GpNextPointsConstantLiarRequest,
  GpNextPointsKrigingRequest, GpHyperOptRequest, GpMeanVarRequest, GpEiRequest]

/-- The declared field names of a mapping schema. -/
def strictNames : SchemaNode → List String
  | .mk (.strictMapping children) _ _ => children.names
  | _ => []

/-- First declared child with the given name. -/
def childNamed : SchemaChildren → String → Option SchemaNode
  | .nil, _ => Option.none
  | .cons n c rest, name =>
    if n == name then Option.some c else childNamed rest name

/-- First declared field of a mapping schema with the given name. -/
def fieldOf : SchemaNode → String → Option SchemaNode
  | .mk (.strictMapping children) _ _, name => childNamed children name
  | _, _ => Option.none

/-- The dict left over after `runChildren` pops each declared name in turn. -/
def stripNames : SchemaChildren → JsonObj → JsonObj
  | .nil, d => d
  | .cons n _ rest, d => stripNames rest (d.removeKey n)

/-- Whether a string occurs in a list (same orientation as
`JsonObj.hasKey`). -/
def listHasStr : List String → String → Bool
  | [], _ => false
  | x :: rest, k => x == k || listHasStr rest k

/-- A duplicate-free list of strings (boolean form). -/
def listNodup : List String → Bool
  | [] => true
  | k :: rest => !(listHasStr rest k) && listNodup rest

/-- A dict whose keys are pairwise distinct (the shape of `toDict` outputs and
of `runChildren` entry lists). -/
def keysNodup : JsonObj → Bool
  | .nil => true
  | .cons k _ rest => !(rest.hasKey k) && keysNodup rest

/-- Field access on an object value (used to state claims about normalized
outputs). -/
def JsonValue.getKey : JsonValue → String → Option JsonValue
  | .obj o, k => o.get k
  | _, _ => Option.none

/-- Whether a node's `missing` default survives a second pass at the given
fuel: re-deserializing it either fails (so idempotence is vacuous there) or
reproduces it exactly.  `missing` values bypass validation on the first pass,
so this is the one place idempotence can break. -/
def defaultOkF (fuel : Nat) (n : SchemaNode) : Option JsonValue → Bool
  | Option.none => true
  | Option.some d =>
    match deserializeNodeF fuel n (Option.some d) with
    | .error _ => true
    | .ok v => v == d

/-- Stability of each child of a mapping under `f`. -/
def stableChildrenWith (f : SchemaNode → Bool) : SchemaChildren → Bool
  | .nil => true
  | .cons _ child rest => f child && stableChildrenWith f rest

/-- Stability of the subnodes of a schema type under `f` (mappings must also
have duplicate-free child names). -/
def stableTypeWith (f : SchemaNode → Bool) : SchemaType → Bool
  | .int => true
  | .float => true
  | .str => true
  | .mappingPreserveFree => true
  | .seq elem => f elem
  | .strictMapping children =>
      listNodup children.names && stableChildrenWith f children

/-- Stability of a schema at its invocation fuel: its own default is
second-pass safe and every subnode is stable one fuel level down. -/
def stableNodeF : Nat → SchemaNode → Bool
  | 0, _ => false
  | fuel + 1, .mk t valr miss =>
      defaultOkF (fuel + 1) (.mk t valr miss) miss &&
        stableTypeWith (stableNodeF fuel) t

/-! Concrete payloads used by the claims. -/

/-- The spec's minimal `gp_ei` request. -/
def minimalGpEiRequest : JsonValue := jobj [
  ("points_to_evaluate", jarr [jarr [.float (.fin (mkRat 1 10))]]),
  ("gp_historical_info", jobj [("points_sampled", jarr [jobj [
      ("point", jarr [.float (.fin 0)]),
      ("value", .float (.fin (mkRat 1 10))),
      ("value_var", .float (.fin (mkRat 1 100)))]])]),
  ("domain_info", jobj [("dim", .int 1)])]

/-- The normalized output of the minimal `gp_ei` request. -/
def minimalGpEiNormalized : JsonValue := jobj [
  ("points_to_evaluate", jarr [jarr [.float (.fin (mkRat 1 10))]]),
  ("points_being_sampled", jarr []),
  ("mc_iterations", .int DEFAULT_EXPECTED_IMPROVEMENT_MC_ITERATIONS),
  ("max_num_threads", .int DEFAULT_MAX_NUM_THREADS),
  ("gp_historical_info", jobj [("points_sampled", jarr [jobj [
      ("point", jarr [.float (.fin 0)]),
      ("value", .float (.fin (mkRat 1 10))),
      ("value_var", .float (.fin (mkRat 1 100)))]])]),
  ("domain_info", jobj [
      ("domain_type", .str TENSOR_PRODUCT_DOMAIN_TYPE),
      ("dim", .int 1)]),
  ("covariance_info", CovarianceInfoDefault)]

/-- The entries of the spec's minimal `gp_mean_var` request body without its
`domain_info` member. -/
def gpMeanVarNoDomainEntries : JsonObj := JsonObj.ofList [
  ("points_to_sample", jarr [jarr [.float (.fin (mkRat 1 10))]]),
  ("gp_historical_info", jobj [("points_sampled", jarr [jobj [
      ("point", jarr [.float (.fin 0)]),
      ("value", .float (.fin (mkRat 1 10))),
      ("value_var", .float (.fin (mkRat 1 100)))]])])]

/-- The spec's minimal `gp_mean_var` request body without its `domain_info`
member. -/
def gpMeanVarNoDomain : JsonValue := .obj gpMeanVarNoDomainEntries

/-- The same `gp_mean_var` request with `domain_info` supplied. -/
def gpMeanVarWithDomain : JsonValue := jobj [
  ("points_to_sample", jarr [jarr [.float (.fin (mkRat 1 10))]]),
  ("gp_historical_info", jobj [("points_sampled", jarr [jobj [
      ("point", jarr [.float (.fin 0)]),
      ("value", .float (.fin (mkRat 1 10))),
      ("value_var", .float (.fin (mkRat 1 100)))]])]),
  ("domain_info", jobj [("dim", .int 1)])]

/-- The minimal `gp_ei` request body without its `domain_info` member. -/
def gpEiNoDomain : JsonValue := jobj [
  ("points_to_evaluate", jarr [jarr [.float (.fin (mkRat 1 10))]]),
  ("gp_historical_info", jobj [("points_sampled", jarr [jobj [
      ("point", jarr [.float (.fin 0)]),
      ("value", .float (.fin (mkRat 1 10))),
      ("value_var", .float (.fin (mkRat 1 100)))]])])]

/-- A `gp_mean_var` request whose optional members are all explicit (its
normalized output re-validates, unlike defaulted outputs). -/
def gpMeanVarExplicit : JsonValue := jobj [
  ("points_to_sample", jarr [jarr [.float (.fin (mkRat 1 10))]]),
  ("gp_historical_info", jobj [("points_sampled", jarr [jobj [
      ("point", jarr [.float (.fin 0)]),
      ("value", .float (.fin (mkRat 1 10))),
      ("value_var", .float (.fin (mkRat 1 100)))]])]),
  ("domain_info", jobj [("dim", .int 1)]),
  ("covariance_info", jobj [
      ("covariance_type", .str SQUARE_EXPONENTIAL_COVARIANCE_TYPE),
      ("hyperparameters", jarr [.float (.fin 1)])])]

/-- The normalized output of `gpMeanVarExplicit`. -/
def gpMeanVarExplicitNormalized : JsonValue := jobj [
  ("points_to_sample", jarr [jarr [.float (.fin (mkRat 1 10))]]),
  ("gp_historical_info", jobj [("points_sampled", jarr [jobj [
      ("point", jarr [.float (.fin 0)]),
      ("value", .float (.fin (mkRat 1 10))),
      ("value_var", .float (.fin (mkRat 1 100)))]])]),
  ("domain_info", jobj [
      ("domain_type", .str TENSOR_PRODUCT_DOMAIN_TYPE),
      ("dim", .int 1)]),
  ("covariance_info", jobj [
      ("covariance_type", .str SQUARE_EXPONENTIAL_COVARIANCE_TYPE),
      ("hyperparameters", jarr [.float (.fin 1)])])]

/-- An `OptimizerInfo` payload whose `optimizer_parameters` carries a key no
schema declares. -/
def optimizerInfoUnknownInner : JsonValue := jobj [
  ("optimizer_parameters", jobj [("arbitrary_key", .int 7)])]

/-- The normalized output of `optimizerInfoUnknownInner`: the unknown inner
key is preserved. -/
def optimizerInfoUnknownInnerNormalized : JsonValue := jobj [
  ("optimizer_type", .pynone),
  ("num_multistarts", .pynone),
  ("num_random_samples", .pynone),
  ("optimizer_parameters", jobj [("arbitrary_key", .int 7)])]

/-- A `GpNextPointsStatus` payload whose `optimizer_success` carries a
free-form diagnostic key. -/
def statusUnknownInner : JsonValue := jobj [
  ("expected_improvement", .float (.fin 1)),
  ("optimizer_success", jobj [("gradient_descent_found_update", .bool true)])]

/-- The normalized output of `statusUnknownInner`: the free-form key is
preserved. -/
def statusUnknownInnerNormalized : JsonValue := jobj [
  ("expected_improvement", .float (.fin 1)),
  ("optimizer_success", jobj [("gradient_descent_found_update", .bool true)])]

/-- The entries of a valid `gp_mean_var` response body (exactly `endpoint`,
`mean`, `var`). -/
def gpMeanVarResponseExampleEntries : JsonObj := JsonObj.ofList [
  ("endpoint", .str "gp_mean_var"),
  ("mean", jarr [.float (.fin 1)]),
  ("var", jarr [jarr [.float (.fin 1)]])]

/-- A valid `gp_mean_var` response body. -/
def gpMeanVarResponseExample : JsonValue := .obj gpMeanVarResponseExampleEntries

/-! Single-motive induction principles for the mutual families (their
constructors only mention the sibling types as data, so plain structural
recursion suffices). -/

theorem JsonObj.objInduction {motive : JsonObj → Prop} (d : JsonObj)
    (nil : motive .nil)
    (cons : ∀ k v rest, motive rest → motive (.cons k v rest)) : motive d :=
  match d with
  | .nil => nil
  | .cons k v rest => cons k v rest (JsonObj.objInduction rest nil cons)

theorem JsonList.listInduction {motive : JsonList → Prop} (l : JsonList)
    (nil : motive .nil)
    (cons : ∀ v rest, motive rest → motive (.cons v rest)) : motive l :=
  match l with
  | .nil => nil
  | .cons v rest => cons v rest (JsonList.listInduction rest nil cons)

theorem SchemaChildren.childrenInduction {motive : SchemaChildren → Prop}
    (c : SchemaChildren) (nil : motive .nil)
    (cons : ∀ name child rest, motive rest → motive (.cons name child rest)) :
    motive c :=
  match c with
  | .nil => nil
  | .cons name child rest =>
      cons name child rest (SchemaChildren.childrenInduction rest nil cons)

/-! Dictionary lemmas. -/

theorem JsonObj.get_eq_none (d : JsonObj) (k : String)
    (h : d.hasKey k = false) : d.get k = Option.none := by
  induction d using JsonObj.objInduction with
  | nil => rfl
  | cons key v rest ih =>
    simp only [JsonObj.hasKey, Bool.or_eq_false_iff] at h
    simp [JsonObj.get, h.1, ih h.2]

theorem JsonObj.hasKey_removeKey (d : JsonObj) (n k : String)
    (h : (n == k) = false) : (d.removeKey n).hasKey k = d.hasKey k := by
  induction d using JsonObj.objInduction with
  | nil => rfl
  | cons key v rest ih =>
    by_cases hk : (key == n) = true
    · have : key = n := by simpa using hk
      subst this
      simp [JsonObj.removeKey, JsonObj.hasKey, h, ih]
    · simp only [Bool.not_eq_true] at hk
      simp [JsonObj.removeKey, JsonObj.hasKey, hk, ih]

theorem JsonObj.hasKey_removeKey_false (d : JsonObj) (n k : String)
    (h : d.hasKey k = false) : (d.removeKey n).hasKey k = false := by
  by_cases hnk : (n == k) = true
  · have : n = k := by simpa using hnk
    subst this
    induction d using JsonObj.objInduction with
    | nil => rfl
    | cons key v rest ih =>
      simp only [JsonObj.hasKey, Bool.or_eq_false_iff] at h
      simp [JsonObj.removeKey, JsonObj.hasKey, h.1, ih h.2]
  · simp only [Bool.not_eq_true] at hnk
    rw [JsonObj.hasKey_removeKey d n k hnk]
    exact h

theorem JsonObj.removeKey_of_hasKey_false (d : JsonObj) (k : String)
    (h : d.hasKey k = false) : d.removeKey k = d := by
  induction d using JsonObj.objInduction with
  | nil => rfl
  | cons key v rest ih =>
    simp only [JsonObj.hasKey, Bool.or_eq_false_iff] at h
    simp [JsonObj.removeKey, h.1, ih h.2]

theorem JsonObj.hasKey_append (a b : JsonObj) (k : String) :
    (a.append b).hasKey k = (a.hasKey k || b.hasKey k) := by
  induction a using JsonObj.objInduction with
  | nil => simp [JsonObj.append, JsonObj.hasKey]
  | cons key v rest ih => simp [JsonObj.append, JsonObj.hasKey, ih, Bool.or_assoc]

theorem JsonObj.append_assoc (a b c : JsonObj) :
    (a.append b).append c = a.append (b.append c) := by
  induction a using JsonObj.objInduction with
  | nil => rfl
  | cons key v rest ih => simp [JsonObj.append, ih]

theorem JsonObj.isEmpty_false_of_hasKey (d : JsonObj) (k : String)
    (h : d.hasKey k = true) : d.isEmpty = false := by
  cases d with
  | nil => simp [JsonObj.hasKey] at h
  | cons key v rest => rfl

theorem isEmpty_dictInsert_false (d : JsonObj) (k : String) (v : JsonValue)
    (h : d.isEmpty = false) : (dictInsert d k v).isEmpty = false := by
  cases d with
  | nil => simp [JsonObj.isEmpty] at h
  | cons key w rest =>
    rw [dictInsert]
    by_cases hk : (JsonObj.cons key w rest).hasKey k = true
    · rw [if_pos hk]
      rw [JsonObj.setKey]
      by_cases hkey : (key == k) = true
      · simp [hkey, JsonObj.isEmpty]
      · simp only [Bool.not_eq_true] at hkey
        simp [hkey, JsonObj.isEmpty]
    · simp only [Bool.not_eq_true] at hk
      rw [if_neg (by simp [hk])]
      simp [JsonObj.append, JsonObj.isEmpty]

theorem isEmpty_toDictAux_false (l : JsonObj) :
    ∀ acc : JsonObj, acc.isEmpty = false → (toDictAux acc l).isEmpty = false := by
  induction l using JsonObj.objInduction with
  | nil => intro acc h; exact h
  | cons k v rest ih =>
    intro acc h
    rw [toDictAux]
    exact ih (dictInsert acc k v) (isEmpty_dictInsert_false acc k v h)

theorem isEmpty_toDict_cons (k : String) (v : JsonValue) (rest : JsonObj) :
    (toDict (.cons k v rest)).isEmpty = false := by
  rw [toDict, toDictAux]
  exact isEmpty_toDictAux_false rest (dictInsert .nil k v) rfl

/-! `runChildren` lemmas. -/

theorem runChildren_ok_names
    (f : SchemaNode → Option JsonValue → Except Err JsonValue) :
    ∀ (children : SchemaChildren) (d entries leftover : JsonObj),
      runChildren f children d = .ok (entries, leftover) →
      entries.keys = children.names := by
  intro children
  induction children using SchemaChildren.childrenInduction with
  | nil =>
    intro d entries leftover h
    rw [runChildren] at h
    cases h
    rfl
  | cons name child rest ih =>
    intro d entries leftover h
    rw [runChildren] at h
    cases hc : f child (d.get name) with
    | error e => rw [hc] at h; cases h
    | ok w =>
      rw [hc] at h
      cases hr : runChildren f rest (d.removeKey name) with
      | error e => rw [hr] at h; cases h
      | ok p =>
        obtain ⟨entries1, leftover1⟩ := p
        rw [hr] at h
        cases h
        simp [JsonObj.keys, SchemaChildren.names, ih _ _ _ hr]

theorem runChildren_ok_leftover
    (f : SchemaNode → Option JsonValue → Except Err JsonValue) :
    ∀ (children : SchemaChildren) (d entries leftover : JsonObj),
      runChildren f children d = .ok (entries, leftover) →
      leftover = stripNames children d := by
  intro children
  induction children using SchemaChildren.childrenInduction with
  | nil =>
    intro d entries leftover h
    rw [runChildren] at h
    cases h
    rfl
  | cons name child rest ih =>
    intro d entries leftover h
    rw [runChildren] at h
    cases hc : f child (d.get name) with
    | error e => rw [hc] at h; cases h
    | ok w =>
      rw [hc] at h
      cases hr : runChildren f rest (d.removeKey name) with
      | error e => rw [hr] at h; cases h
      | ok p =>
        obtain ⟨entries1, leftover1⟩ := p
        rw [hr] at h
        cases h
        exact ih _ _ _ hr

theorem JsonObj.append_nil (a : JsonObj) : a.append .nil = a := by
  induction a using JsonObj.objInduction with
  | nil => rfl
  | cons key v rest ih => simp [JsonObj.append, ih]

theorem JsonObj.hasKey_eq_keys (d : JsonObj) (k : String) :
    d.hasKey k = listHasStr d.keys k := by
  induction d using JsonObj.objInduction with
  | nil => rfl
  | cons key v rest ih => simp [JsonObj.hasKey, JsonObj.keys, listHasStr, ih]

theorem keysNodup_eq_listNodup (d : JsonObj) :
    keysNodup d = listNodup d.keys := by
  induction d using JsonObj.objInduction with
  | nil => rfl
  | cons key v rest ih =>
    simp [keysNodup, listNodup, JsonObj.keys, ih, JsonObj.hasKey_eq_keys]

theorem keys_setKey (d : JsonObj) (k : String) (v : JsonValue) :
    (d.setKey k v).keys = d.keys := by
  induction d using JsonObj.objInduction with
  | nil => rfl
  | cons key w rest ih =>
    by_cases h : (key == k) = true
    · simp [JsonObj.setKey, h, JsonObj.keys]
    · simp only [Bool.not_eq_true] at h
      simp [JsonObj.setKey, h, JsonObj.keys, ih]

theorem keys_append (a b : JsonObj) : (a.append b).keys = a.keys ++ b.keys := by
  induction a using JsonObj.objInduction with
  | nil => rfl
  | cons key v rest ih => simp [JsonObj.append, JsonObj.keys, ih]

theorem listHasStr_append (l1 l2 : List String) (a : String) :
    listHasStr (l1 ++ l2) a = (listHasStr l1 a || listHasStr l2 a) := by
  induction l1 with
  | nil => rfl
  | cons x rest ih => simp [listHasStr, ih, Bool.or_assoc]

theorem listNodup_append_singleton (l : List String) (k : String)
    (h : listNodup l = true) (hk : listHasStr l k = false) :
    listNodup (l ++ [k]) = true := by
  induction l with
  | nil => simp [listNodup, listHasStr]
  | cons a rest ih =>
    simp only [listNodup, Bool.and_eq_true] at h
    simp only [listHasStr, Bool.or_eq_false_iff] at hk
    simp only [List.cons_append, listNodup, Bool.and_eq_true]
    refine ⟨?_, ih h.2 hk.2⟩
    simp only [List.append_eq]
    rw [listHasStr_append]
    have h1 : listHasStr rest a = false := by simpa using h.1
    have hak : a ≠ k := by simpa using hk.1
    have h2 : listHasStr [k] a = false := by
      simp only [listHasStr, Bool.or_false]
      rw [beq_eq_false_iff_ne]
      exact fun hh => hak hh.symm
    simp [h1, h2]

theorem keysNodup_dictInsert (d : JsonObj) (k : String) (v : JsonValue)
    (h : keysNodup d = true) : keysNodup (dictInsert d k v) = true := by
  rw [keysNodup_eq_listNodup] at h ⊢
  rw [dictInsert]
  by_cases hk : d.hasKey k = true
  · rw [if_pos hk, keys_setKey]; exact h
  · simp only [Bool.not_eq_true] at hk
    rw [if_neg (by simp [hk]), keys_append]
    exact listNodup_append_singleton d.keys k h
      (by rw [← JsonObj.hasKey_eq_keys]; exact hk)

theorem keysNodup_toDictAux (l : JsonObj) :
    ∀ acc : JsonObj, keysNodup acc = true →
      keysNodup (toDictAux acc l) = true := by
  induction l using JsonObj.objInduction with
  | nil => intro acc h; exact h
  | cons k v rest ih =>
    intro acc h
    rw [toDictAux]
    exact ih (dictInsert acc k v) (keysNodup_dictInsert acc k v h)

theorem keysNodup_toDict (l : JsonObj) : keysNodup (toDict l) = true :=
  keysNodup_toDictAux l .nil rfl

theorem toDictAux_eq_append :
    ∀ (l acc : JsonObj), keysNodup l = true →
      (∀ k, l.hasKey k = true → acc.hasKey k = false) →
      toDictAux acc l = acc.append l := by
  intro l
  induction l using JsonObj.objInduction with
  | nil => intro acc _ _; rw [toDictAux, JsonObj.append_nil]
  | cons k v rest ih =>
    intro acc hnodup hdisj
    have hk : acc.hasKey k = false := hdisj k (by simp [JsonObj.hasKey])
    simp only [keysNodup, Bool.and_eq_true, Bool.not_eq_true'] at hnodup
    rw [toDictAux, dictInsert, if_neg (by simp [hk])]
    rw [ih (acc.append (.cons k v .nil)) hnodup.2 ?_, JsonObj.append_assoc]
    · rfl
    · intro x hx
      rw [JsonObj.hasKey_append]
      have h1 : acc.hasKey x = false :=
        hdisj x (by simp [JsonObj.hasKey, hx])
      have h2 : (JsonObj.cons k v .nil).hasKey x = false := by
        simp only [JsonObj.hasKey, Bool.or_false]
        by_cases hkx : k = x
        · subst hkx; rw [hx] at hnodup; exact absurd hnodup.1 (by simp)
        · simp [hkx]
      simp [h1, h2]

theorem toDict_of_keysNodup (d : JsonObj) (h : keysNodup d = true) :
    toDict d = d := by
  rw [toDict, toDictAux_eq_append d .nil h (fun k _ => rfl)]
  rfl

theorem toDict_idem (l : JsonObj) : toDict (toDict l) = toDict l :=
  toDict_of_keysNodup _ (keysNodup_toDict l)

theorem hasKey_stripNames :
    ∀ (children : SchemaChildren) (d : JsonObj) (k : String),
      listHasStr children.names k = false →
      (stripNames children d).hasKey k = d.hasKey k := by
  intro children
  induction children using SchemaChildren.childrenInduction with
  | nil => intro d k _; rfl
  | cons name child rest ih =>
    intro d k h
    simp only [SchemaChildren.names, listHasStr, Bool.or_eq_false_iff] at h
    rw [stripNames, ih (d.removeKey name) k h.2,
      JsonObj.hasKey_removeKey d name k h.1]

theorem runChildren_absent_default
    (f : SchemaNode → Option JsonValue → Except Err JsonValue)
    (name : String) (child : SchemaNode) (w : JsonValue)
    (hw : f child Option.none = .ok w) :
    ∀ (children : SchemaChildren) (d entries leftover : JsonObj),
      childNamed children name = Option.some child →
      d.hasKey name = false →
      runChildren f children d = .ok (entries, leftover) →
      entries.get name = Option.some w := by
  intro children
  induction children using SchemaChildren.childrenInduction with
  | nil => intro d entries leftover hc _ _; simp [childNamed] at hc
  | cons n c rest ih =>
    intro d entries leftover hc hd h
    rw [runChildren] at h
    by_cases hn : (n == name) = true
    · have hnn : n = name := by simpa using hn
      subst hnn
      rw [childNamed, if_pos (by simp)] at hc
      obtain rfl : c = child := by simpa using hc
      rw [JsonObj.get_eq_none d n hd, hw] at h
      cases hr : runChildren f rest (d.removeKey n) with
      | error e => rw [hr] at h; cases h
      | ok p =>
        obtain ⟨e1, l1⟩ := p
        rw [hr] at h
        cases h
        simp [JsonObj.get]
    · rw [childNamed, if_neg hn] at hc
      cases hcw : f c (d.get n) with
      | error e => rw [hcw] at h; cases h
      | ok w1 =>
        rw [hcw] at h
        cases hr : runChildren f rest (d.removeKey n) with
        | error e => rw [hr] at h; cases h
        | ok p =>
          obtain ⟨e1, l1⟩ := p
          rw [hr] at h
          cases h
          rw [JsonObj.get, if_neg hn]
          exact ih _ _ _ hc (JsonObj.hasKey_removeKey_false d n name hd) hr

theorem runChildren_absent_required
    (f : SchemaNode → Option JsonValue → Except Err JsonValue)
    (name : String) (child : SchemaNode)
    (hw : f child Option.none = .error .invalid) :
    ∀ (children : SchemaChildren) (d : JsonObj),
      childNamed children name = Option.some child →
      d.hasKey name = false →
      runChildren f children d = .error .invalid := by
  intro children
  induction children using SchemaChildren.childrenInduction with
  | nil => intro d hc _; simp [childNamed] at hc
  | cons n c rest ih =>
    intro d hc hd
    rw [runChildren]
    by_cases hn : (n == name) = true
    · have hnn : n = name := by simpa using hn
      subst hnn
      rw [childNamed, if_pos (by simp)] at hc
      obtain rfl : c = child := by simpa using hc
      rw [JsonObj.get_eq_none d n hd, hw]
    · rw [childNamed, if_neg hn] at hc
      cases hcw : f c (d.get n) with
      | error e => cases e; rfl
      | ok w1 =>
        rw [ih (d.removeKey n) hc
          (JsonObj.hasKey_removeKey_false d n name hd)]

theorem deserializeNode_strict_eq (children : SchemaChildren)
    (valr : Validator) (miss : Option JsonValue) (l : JsonObj) :
    deserializeNode (.mk (.strictMapping children) valr miss)
        (Option.some (.obj l)) =
      match runChildren (deserializeNodeF children.depth) children (toDict l)
        with
      | .error e => .error e
      | .ok (entries, leftover) =>
        if leftover.isEmpty then
          (if valr.run (.obj entries) then .ok (.obj entries)
           else .error .invalid)
        else .error .invalid := by
  cases hr : runChildren (deserializeNodeF children.depth) children (toDict l)
    with
  | error e =>
    simp [deserializeNode, SchemaNode.depth, SchemaType.depth,
      deserializeNodeF, deserializeTypeF, hr]
  | ok p =>
    obtain ⟨entries, leftover⟩ := p
    cases hle : leftover.isEmpty
    · simp [deserializeNode, SchemaNode.depth, SchemaType.depth,
        deserializeNodeF, deserializeTypeF, hr, hle]
    · simp [deserializeNode, SchemaNode.depth, SchemaType.depth,
        deserializeNodeF, deserializeTypeF, hr, hle]

theorem strict_unknown_key_fails (children : SchemaChildren)
    (valr : Validator) (miss : Option JsonValue) (l : JsonObj) (k : String)
    (hk : (toDict l).hasKey k = true)
    (hnot : listHasStr children.names k = false) :
    isOk (deserializeNode (.mk (.strictMapping children) valr miss)
      (Option.some (.obj l))) = false := by
  rw [deserializeNode_strict_eq]
  cases hr : runChildren (deserializeNodeF children.depth) children (toDict l)
    with
  | error e => simp [isOk]
  | ok p =>
    obtain ⟨entries, leftover⟩ := p
    have hl : leftover = stripNames children (toDict l) :=
      runChildren_ok_leftover _ _ _ _ _ hr
    have hkk : leftover.hasKey k = true := by
      rw [hl, hasKey_stripNames children _ k hnot]
      exact hk
    have hle : leftover.isEmpty = false :=
      JsonObj.isEmpty_false_of_hasKey _ k hkk
    simp [hle, isOk]

/-! Claim theorems. -/

theorem deserialize_PositiveFloat (v : PyFloat) :
    deserializeNode PositiveFloat (Option.some (.float v)) =
      if PyFloat.lt PyFloat.zero v && PyFloat.lt v PyFloat.inf then
        .ok (.float v)
      else .error .invalid := by
  simp only [deserializeNode, PositiveFloat, SchemaNode.depth, SchemaType.depth,
    deserializeNodeF, deserializeTypeF, JsonValue.eqZero, JsonValue.falsy,
    Bool.not_and_self, Bool.false_and, if_false, Validator.run]
  rfl

/-- C2: `PositiveFloat` accepts a float `v` iff `0.0 < v < +∞` under IEEE
comparison; in particular `0.0`, every negative value, `+∞`, and `NaN` are
rejected with a validation error. -/
theorem C2_positive_float_accepts_iff_positive_finite :
    (∀ v : PyFloat,
      isOk (deserializeNode PositiveFloat (Option.some (.float v))) = true ↔
        (PyFloat.lt PyFloat.zero v = true ∧ PyFloat.lt v PyFloat.inf = true))
    ∧ isOk (deserializeNode PositiveFloat
        (Option.some (.float PyFloat.zero))) = false
    ∧ (∀ q : Rat, q < 0 →
        isOk (deserializeNode PositiveFloat
          (Option.some (.float (.fin q)))) = false)
    ∧ isOk (deserializeNode PositiveFloat
        (Option.some (.float PyFloat.inf))) = false
    ∧ isOk (deserializeNode PositiveFloat
        (Option.some (.float PyFloat.nan))) = false := by
  have key : ∀ v : PyFloat,
      isOk (deserializeNode PositiveFloat (Option.some (.float v))) =
        (PyFloat.lt PyFloat.zero v && PyFloat.lt v PyFloat.inf) := by
    intro v
    rw [deserialize_PositiveFloat]
    cases h : PyFloat.lt PyFloat.zero v && PyFloat.lt v PyFloat.inf <;>
      simp [h, isOk]
  refine ⟨?_, ?_, ?_, ?_, ?_⟩
  · intro v
    rw [key]
    simp [Bool.and_eq_true]
  · rw [key]; rfl
  · intro q hq
    rw [key]
    have : PyFloat.lt PyFloat.zero (.fin q) = false := by
      simp [PyFloat.lt, PyFloat.zero]
      exact le_of_lt hq
    simp [this]
  · rw [key]; rfl
  · rw [key]; rfl

/-- C2 witness: the theorem applied at the negative float `-1.0`. -/
theorem C2_witness :
    isOk (Moe.deserializeNode Moe.PositiveFloat
      (Option.some (.float (.fin (-1))))) = false :=
  C2_positive_float_accepts_iff_positive_finite.2.2.1 (-1) (by norm_num)

/-- C9: a `DomainCoordinate` mapping `{min: a, max: b}` deserializes
successfully even when `a > b`; the ordering invariant is not checked. -/
theorem C9_domain_coordinate_unordered (a b : PyFloat)
    (_hab : PyFloat.lt b a = true) :
    deserializeNode DomainCoordinate
        (Option.some (jobj [("min", .float a), ("max", .float b)])) =
      .ok (jobj [("min", .float a), ("max", .float b)]) := by
  have e1 : deserializeNode DomainCoordinate
      (Option.some (jobj [("min", .float a), ("max", .float b)])) =
        match runChildren
            (deserializeNodeF
              (SchemaChildren.ofList [
                ("min", .mk .float .noValidator Option.none),
                ("max", .mk .float .noValidator Option.none)]).depth)
            (SchemaChildren.ofList [
              ("min", .mk .float .noValidator Option.none),
              ("max", .mk .float .noValidator Option.none)])
            (toDict (JsonObj.ofList [("min", .float a), ("max", .float b)]))
          with
        | .error e => .error e
        | .ok (entries, leftover) =>
          if leftover.isEmpty then
            (if Validator.run .noValidator (.obj entries) then
              .ok (.obj entries)
             else .error .invalid)
          else .error .invalid :=
    deserializeNode_strict_eq _ _ _ _
  rw [e1]
  simp [toDict, toDictAux, dictInsert, JsonObj.hasKey, JsonObj.append,
    runChildren, JsonObj.get, JsonObj.removeKey, SchemaChildren.depth,
    SchemaNode.depth, SchemaType.depth, deserializeNodeF, deserializeTypeF,
    JsonValue.eqZero, JsonValue.falsy, Bool.not_and_self,
    Validator.run, JsonObj.isEmpty, jobj, JsonObj.ofList]

/-- C9 witness: the theorem applied at `min = 1.0 > max = 0.0`. -/
theorem C9_witness :
    Moe.deserializeNode Moe.DomainCoordinate
        (Option.some (Moe.jobj [("min", .float (.fin 1)),
          ("max", .float (.fin 0))])) =
      .ok (Moe.jobj [("min", .float (.fin 1)), ("max", .float (.fin 0))]) :=
  C9_domain_coordinate_unordered (.fin 1) (.fin 0) (by rfl)

/-- C10: the null-optimizer parameter schema accepts exactly the empty
mapping: `{}` deserializes to `{}`, and any mapping with at least one key is
rejected with a validation error. -/
theorem C10_null_parameters_only_empty :
    deserializeNode NullParametersSchema (Option.some (jobj [])) =
        .ok (jobj [])
    ∧ ∀ (k : String) (v : JsonValue) (l : JsonObj),
        isOk (deserializeNode NullParametersSchema
          (Option.some (.obj (.cons k v l)))) = false := by
  refine ⟨rfl, ?_⟩
  intro k v l
  have e1 : deserializeNode NullParametersSchema
      (Option.some (.obj (.cons k v l))) =
        match runChildren
            (deserializeNodeF (SchemaChildren.ofList []).depth)
            (SchemaChildren.ofList []) (toDict (.cons k v l)) with
        | .error e => .error e
        | .ok (entries, leftover) =>
          if leftover.isEmpty then
            (if Validator.run .noValidator (.obj entries) then
              .ok (.obj entries)
             else .error .invalid)
          else .error .invalid :=
    deserializeNode_strict_eq _ _ _ _
  rw [e1]
  simp [runChildren, isEmpty_toDict_cons, isOk]

theorem listHasStr_false_iff (l : List String) (k : String) :
    listHasStr l k = false ↔ k ∉ l := by
  induction l with
  | nil => simp [listHasStr]
  | cons x rest ih =>
    simp only [listHasStr, Bool.or_eq_false_iff, beq_eq_false_iff_ne, ih,
      List.mem_cons, not_or]
    constructor
    · rintro ⟨h1, h2⟩
      exact ⟨fun h => h1 h.symm, h2⟩
    · rintro ⟨h1, h2⟩
      exact ⟨fun h => h1 h.symm, h2⟩

theorem strict_required_key_fails (children : SchemaChildren)
    (valr : Validator) (miss : Option JsonValue) (l : JsonObj) (name : String)
    (child : SchemaNode)
    (hc : childNamed children name = Option.some child)
    (hw : deserializeNodeF children.depth child Option.none = .error .invalid)
    (hk : (toDict l).hasKey name = false) :
    isOk (deserializeNode (.mk (.strictMapping children) valr miss)
      (Option.some (.obj l))) = false := by
  rw [deserializeNode_strict_eq,
    runChildren_absent_required _ name child hw children (toDict l) hc hk]
  rfl

theorem strict_absent_default_get (children : SchemaChildren)
    (valr : Validator) (miss : Option JsonValue) (l : JsonObj) (y : JsonValue)
    (name : String) (child : SchemaNode) (w : JsonValue)
    (hc : childNamed children name = Option.some child)
    (hw : deserializeNodeF children.depth child Option.none = .ok w)
    (hk : (toDict l).hasKey name = false)
    (h : deserializeNode (.mk (.strictMapping children) valr miss)
      (Option.some (.obj l)) = .ok y) :
    y.getKey name = Option.some w := by
  rw [deserializeNode_strict_eq] at h
  cases hr : runChildren (deserializeNodeF children.depth) children (toDict l)
    with
  | error e => rw [hr] at h; simp at h
  | ok p =>
    obtain ⟨entries, leftover⟩ := p
    rw [hr] at h
    have h2 : (if leftover.isEmpty then
        (if valr.run (.obj entries) then Except.ok (JsonValue.obj entries)
         else Except.error Err.invalid)
        else Except.error Err.invalid) = Except.ok y := h
    by_cases hle : leftover.isEmpty = true
    · rw [if_pos hle] at h2
      by_cases hvr : valr.run (.obj entries) = true
      · rw [if_pos hvr] at h2
        cases h2
        exact runChildren_absent_default _ name child w hw children _ _ _
          hc hk hr
      · rw [if_neg hvr] at h2; cases h2
    · rw [if_neg hle] at h2; cases h2

/-- C5 counterexample: the claim says omitting `domain_info` from an
otherwise-valid `gp_mean_var` / `gp_ei` request still validates; in fact both
fail (the same bodies with `domain_info` added succeed). -/
theorem C5_counterexample :
    isOk (deserializeNode GpMeanVarRequest
        (Option.some gpMeanVarNoDomain)) = false
    ∧ isOk (deserializeNode GpMeanVarRequest
        (Option.some gpMeanVarWithDomain)) = true
    ∧ isOk (deserializeNode GpEiRequest (Option.some gpEiNoDomain)) = false
    ∧ isOk (deserializeNode GpEiRequest
        (Option.some minimalGpEiRequest)) = true :=
  ⟨rfl, rfl, rfl, rfl⟩

/-- C5 amended: `domain_info` is a required field of the `gp_mean_var` and
`gp_ei` request schemas; every mapping without that key fails validation,
while the spec's minimal bodies with `domain_info` supplied succeed. -/
theorem C5_amended_domain_info_required :
    (∀ l : JsonObj, (toDict l).hasKey "domain_info" = false →
      isOk (deserializeNode GpMeanVarRequest (Option.some (.obj l))) = false)
    ∧ (∀ l : JsonObj, (toDict l).hasKey "domain_info" = false →
      isOk (deserializeNode GpEiRequest (Option.some (.obj l))) = false)
    ∧ isOk (deserializeNode GpMeanVarRequest
        (Option.some gpMeanVarWithDomain)) = true
    ∧ isOk (deserializeNode GpEiRequest
        (Option.some minimalGpEiRequest)) = true := by
  refine ⟨?_, ?_, rfl, rfl⟩
  · intro l hl
    exact strict_required_key_fails _ _ _ l "domain_info" DomainInfo rfl rfl hl
  · intro l hl
    exact strict_required_key_fails _ _ _ l "domain_info" DomainInfo rfl rfl hl

/-- C5 witness: the amended theorem applied to the `gp_mean_var` body without
`domain_info`. -/
theorem C5_amended_witness :
    isOk (Moe.deserializeNode Moe.GpMeanVarRequest
      (Option.some (.obj gpMeanVarNoDomainEntries))) = false :=
  C5_amended_domain_info_required.1 gpMeanVarNoDomainEntries rfl

/-- C6: the spec's minimal `gp_ei` request validates, and its normalized
output carries the defaulted `mc_iterations`, `max_num_threads`, and
`covariance_info` (square-exponential type, absent hyperparameters). -/
theorem C6_minimal_gp_ei_defaults :
    deserializeNode GpEiRequest (Option.some minimalGpEiRequest) =
        .ok minimalGpEiNormalized
    ∧ minimalGpEiNormalized.getKey "mc_iterations" =
        Option.some (.int DEFAULT_EXPECTED_IMPROVEMENT_MC_ITERATIONS)
    ∧ minimalGpEiNormalized.getKey "max_num_threads" =
        Option.some (.int DEFAULT_MAX_NUM_THREADS)
    ∧ minimalGpEiNormalized.getKey "covariance_info" =
        Option.some CovarianceInfoDefault
    ∧ CovarianceInfoDefault = jobj [
        ("covariance_type", .str SQUARE_EXPONENTIAL_COVARIANCE_TYPE),
        ("hyperparameters", .pynone)] :=
  ⟨rfl, rfl, rfl, rfl, rfl⟩

/-- C4: omitting `optimizer_type`, `num_multistarts`, `num_random_samples`,
or `optimizer_parameters` from an `OptimizerInfo` mapping, or
`hyperparameters` from a `CovarianceInfo` mapping, yields the `None` sentinel
for that field in the normalized output. -/
theorem C4_absent_fields_default_to_none_sentinel :
    (∀ (l : JsonObj) (y : JsonValue),
      (toDict l).hasKey "optimizer_type" = false →
      deserializeNode OptimizerInfo (Option.some (.obj l)) = .ok y →
      y.getKey "optimizer_type" = Option.some .pynone)
    ∧ (∀ (l : JsonObj) (y : JsonValue),
      (toDict l).hasKey "num_multistarts" = false →
      deserializeNode OptimizerInfo (Option.some (.obj l)) = .ok y →
      y.getKey "num_multistarts" = Option.some .pynone)
    ∧ (∀ (l : JsonObj) (y : JsonValue),
      (toDict l).hasKey "num_random_samples" = false →
      deserializeNode OptimizerInfo (Option.some (.obj l)) = .ok y →
      y.getKey "num_random_samples" = Option.some .pynone)
    ∧ (∀ (l : JsonObj) (y : JsonValue),
      (toDict l).hasKey "optimizer_parameters" = false →
      deserializeNode OptimizerInfo (Option.some (.obj l)) = .ok y →
      y.getKey "optimizer_parameters" = Option.some .pynone)
    ∧ (∀ (l : JsonObj) (y : JsonValue),
      (toDict l).hasKey "hyperparameters" = false →
      deserializeNode CovarianceInfo (Option.some (.obj l)) = .ok y →
      y.getKey "hyperparameters" = Option.some .pynone) := by
  refine ⟨?_, ?_, ?_, ?_, ?_⟩
  · intro l y hk h
    refine strict_absent_default_get _ _ _ l y _
      (.mk .str (.oneOf OPTIMIZER_TYPES) (Option.some .pynone)) _ ?_ ?_ hk h
      <;> rfl
  · intro l y hk h
    refine strict_absent_default_get _ _ _ l y _
      (.mk .int (.rangeInt (Option.some 1) Option.none) (Option.some .pynone))
      _ ?_ ?_ hk h <;> rfl
  · intro l y hk h
    refine strict_absent_default_get _ _ _ l y _
      (.mk .int (.rangeInt (Option.some 0) Option.none) (Option.some .pynone))
      _ ?_ ?_ hk h <;> rfl
  · intro l y hk h
    refine strict_absent_default_get _ _ _ l y _
      OptimizerParametersNode _ ?_ ?_ hk h <;> rfl
  · intro l y hk h
    refine strict_absent_default_get _ _ _ l y _
      (ListOfPositiveFloats.withMissing .pynone) _ ?_ ?_ hk h <;> rfl

/-- C4 witness: the theorem applied to the empty `OptimizerInfo` mapping. -/
theorem C4_witness :
    (Moe.OptimizerInfoDefault).getKey "optimizer_type" =
      Option.some .pynone :=
  C4_absent_fields_default_to_none_sentinel.1 .nil OptimizerInfoDefault
    rfl rfl

/-- C1: every composite schema rejects a mapping carrying any key it does not
declare; the two preserve-mode fields (`optimizer_parameters` and
`optimizer_success`) instead accept arbitrary mappings and keep the unknown
keys in the output. -/
theorem C1_closed_schemas_except_preserve_fields :
    (∀ s ∈ compositeSchemas, ∀ (l : JsonObj) (k : String),
      (toDict l).hasKey k = true → k ∉ strictNames s →
      isOk (deserializeNode s (Option.some (.obj l))) = false)
    ∧ (∀ l : JsonObj, deserializeNode OptimizerParametersNode
        (Option.some (.obj l)) = .ok (.obj (toDict l)))
    ∧ (∀ l : JsonObj, deserializeNode OptimizerSuccessNode
        (Option.some (.obj l)) = .ok (.obj (toDict l)))
    ∧ deserializeNode OptimizerInfo (Option.some optimizerInfoUnknownInner) =
        .ok optimizerInfoUnknownInnerNormalized
    ∧ deserializeNode GpNextPointsStatus (Option.some statusUnknownInner) =
        .ok statusUnknownInnerNormalized := by
  refine ⟨?_, fun l => rfl, fun l => rfl, rfl, rfl⟩
  intro s hs l k hk hnot
  fin_cases hs <;>
    exact strict_unknown_key_fails _ _ _ _ _ hk
      ((listHasStr_false_iff _ _).mpr hnot)

/-- C1 witness: the theorem applied to `DomainCoordinate` and a mapping with
the undeclared key `"typo"`. -/
theorem C1_witness :
    isOk (Moe.deserializeNode Moe.DomainCoordinate
      (Option.some (.obj (.cons "typo" (.int 3) .nil)))) = false :=
  C1_closed_schemas_except_preserve_fields.1 DomainCoordinate
    (by simp [compositeSchemas]) (.cons "typo" (.int 3) .nil) "typo" rfl
    (by simp [strictNames, DomainCoordinate, strictOf, SchemaChildren.ofList,
      SchemaChildren.names])

theorem int_node_ok (fuel : Nat) (valr : Validator) (miss : Option JsonValue)
    (n : Int) (h : valr.run (.int n) = true) :
    deserializeNodeF (fuel + 1) (.mk .int valr miss)
      (Option.some (.int n)) = .ok (.int n) := by
  simp [deserializeNodeF, deserializeTypeF, JsonValue.eqZero, JsonValue.falsy,
    Bool.not_and_self, h]

theorem float_node_ok (fuel : Nat) (valr : Validator) (miss : Option JsonValue)
    (x : PyFloat) (h : valr.run (.float x) = true) :
    deserializeNodeF (fuel + 1) (.mk .float valr miss)
      (Option.some (.float x)) = .ok (.float x) := by
  simp [deserializeNodeF, deserializeTypeF, JsonValue.eqZero, JsonValue.falsy,
    Bool.not_and_self, h]

theorem float_node_fail (fuel : Nat) (valr : Validator)
    (miss : Option JsonValue) (x : PyFloat)
    (h : valr.run (.float x) = false) :
    deserializeNodeF (fuel + 1) (.mk .float valr miss)
      (Option.some (.float x)) = .error .invalid := by
  simp [deserializeNodeF, deserializeTypeF, JsonValue.eqZero, JsonValue.falsy,
    Bool.not_and_self, h]

theorem runChildren_cons_ok
    (f : SchemaNode → Option JsonValue → Except Err JsonValue) (name : String)
    (child : SchemaNode) (rest : SchemaChildren) (d : JsonObj) (w : JsonValue)
    (entries leftover : JsonObj)
    (h1 : f child (d.get name) = .ok w)
    (h2 : runChildren f rest (d.removeKey name) = .ok (entries, leftover)) :
    runChildren f (.cons name child rest) d =
      .ok (.cons name w entries, leftover) := by
  rw [runChildren, h1, h2]

theorem runChildren_cons_err
    (f : SchemaNode → Option JsonValue → Except Err JsonValue) (name : String)
    (child : SchemaNode) (rest : SchemaChildren) (d : JsonObj)
    (h1 : f child (d.get name) = .error .invalid) :
    runChildren f (.cons name child rest) d = .error .invalid := by
  rw [runChildren, h1]

theorem runChildren_cons_ok_err
    (f : SchemaNode → Option JsonValue → Except Err JsonValue) (name : String)
    (child : SchemaNode) (rest : SchemaChildren) (d : JsonObj) (w : JsonValue)
    (h1 : f child (d.get name) = .ok w)
    (h2 : runChildren f rest (d.removeKey name) = .error .invalid) :
    runChildren f (.cons name child rest) d = .error .invalid := by
  rw [runChildren, h1, h2]

/-- C3: with `gamma = 0.5` and every other field present and in range, the
gradient-descent parameter schema accepts the block while the Newton
parameter schema rejects it; their `gamma` fields carry the distinct lower
bounds 0.0 and 1.0. -/
theorem C3_newton_vs_gradient_descent_gamma :
    (∀ (steps restarts avg : Int) (pm mrc tol : PyFloat),
      Validator.run (.rangeInt (Option.some 1) Option.none)
        (.int steps) = true →
      Validator.run (.rangeInt (Option.some 1) Option.none)
        (.int restarts) = true →
      Validator.run (.rangeInt (Option.some 0) Option.none)
        (.int avg) = true →
      Validator.run (.rangeFloat (Option.some PyFloat.zero) Option.none)
        (.float pm) = true →
      Validator.run (.rangeFloat (Option.some PyFloat.zero)
        (Option.some (.fin 1))) (.float mrc) = true →
      Validator.run (.rangeFloat (Option.some PyFloat.zero) Option.none)
        (.float tol) = true →
      deserializeNode GradientDescentParametersSchema (Option.some (jobj [
        ("max_num_steps", .int steps),
        ("max_num_restarts", .int restarts),
        ("num_steps_averaged", .int avg),
        ("gamma", .float (.fin (mkRat 1 2))),
        ("pre_mult", .float pm),
        ("max_relative_change", .float mrc),
        ("tolerance", .float tol)])) =
      .ok (jobj [
        ("max_num_steps", .int steps),
        ("max_num_restarts", .int restarts),
        ("num_steps_averaged", .int avg),
        ("gamma", .float (.fin (mkRat 1 2))),
        ("pre_mult", .float pm),
        ("max_relative_change", .float mrc),
        ("tolerance", .float tol)]))
    ∧ (∀ (steps : Int) (tf mrc tol : PyFloat),
      Validator.run (.rangeInt (Option.some 1) Option.none)
        (.int steps) = true →
      Validator.run (.rangeFloat (Option.some (.fin (mkRat 1 (10 ^ 16))))
        Option.none) (.float tf) = true →
      Validator.run (.rangeFloat (Option.some PyFloat.zero)
        (Option.some (.fin 1))) (.float mrc) = true →
      Validator.run (.rangeFloat (Option.some PyFloat.zero) Option.none)
        (.float tol) = true →
      isOk (deserializeNode NewtonParametersSchema (Option.some (jobj [
        ("max_num_steps", .int steps),
        ("gamma", .float (.fin (mkRat 1 2))),
        ("time_factor", .float tf),
        ("max_relative_change", .float mrc),
        ("tolerance", .float tol)]))) = false)
    ∧ fieldOf NewtonParametersSchema "gamma" =
        Option.some (.mk .float
          (.rangeFloat (Option.some (.fin 1)) Option.none) Option.none)
    ∧ fieldOf GradientDescentParametersSchema "gamma" =
        Option.some (.mk .float
          (.rangeFloat (Option.some PyFloat.zero) Option.none)
          Option.none) := by
  have hgd : Validator.run
      (.rangeFloat (Option.some PyFloat.zero) Option.none)
      (.float (.fin (mkRat 1 2))) = true := rfl
  have hng : Validator.run
      (.rangeFloat (Option.some (.fin 1)) Option.none)
      (.float (.fin (mkRat 1 2))) = false := rfl
  refine ⟨?_, ?_, rfl, rfl⟩
  · intro steps restarts avg pm mrc tol h1 h2 h3 h4 h5 h6
    have r7 : runChildren (deserializeNodeF 1) .nil .nil = .ok (.nil, .nil) :=
      rfl
    have r6 : runChildren (deserializeNodeF 1)
        (SchemaChildren.ofList [
          ("tolerance", .mk .float
            (.rangeFloat (Option.some PyFloat.zero) Option.none)
            Option.none)])
        (JsonObj.ofList [("tolerance", .float tol)]) =
        .ok (JsonObj.ofList [("tolerance", .float tol)], .nil) :=
      runChildren_cons_ok _ _ _ _ _ _ _ _ (float_node_ok 0 _ _ tol h6) r7
    have r5 : runChildren (deserializeNodeF 1)
        (SchemaChildren.ofList [
          ("max_relative_change", .mk .float
            (.rangeFloat (Option.some PyFloat.zero) (Option.some (.fin 1)))
            Option.none),
          ("tolerance", .mk .float
            (.rangeFloat (Option.some PyFloat.zero) Option.none)
            Option.none)])
        (JsonObj.ofList [("max_relative_change", .float mrc),
          ("tolerance", .float tol)]) =
        .ok (JsonObj.ofList [("max_relative_change", .float mrc),
          ("tolerance", .float tol)], .nil) :=
      runChildren_cons_ok _ _ _ _ _ _ _ _ (float_node_ok 0 _ _ mrc h5) r6
    have r4 : runChildren (deserializeNodeF 1)
        (SchemaChildren.ofList [
          ("pre_mult", .mk .float
            (.rangeFloat (Option.some PyFloat.zero) Option.none)
            Option.none),
          ("max_relative_change", .mk .float
            (.rangeFloat (Option.some PyFloat.zero) (Option.some (.fin 1)))
            Option.none),
          ("tolerance", .mk .float
            (.rangeFloat (Option.some PyFloat.zero) Option.none)
            Option.none)])
        (JsonObj.ofList [("pre_mult", .float pm),
          ("max_relative_change", .float mrc),
          ("tolerance", .float tol)]) =
        .ok (JsonObj.ofList [("pre_mult", .float pm),
          ("max_relative_change", .float mrc),
          ("tolerance", .float tol)], .nil) :=
      runChildren_cons_ok _ _ _ _ _ _ _ _ (float_node_ok 0 _ _ pm h4) r5
    have r3 : runChildren (deserializeNodeF 1)
        (SchemaChildren.ofList [
          ("gamma", .mk .float
            (.rangeFloat (Option.some PyFloat.zero) Option.none)
            Option.none),
          ("pre_mult", .mk .float
            (.rangeFloat (Option.some PyFloat.zero) Option.none)
            Option.none),
          ("max_relative_change", .mk .float
            (.rangeFloat (Option.some PyFloat.zero) (Option.some (.fin 1)))
            Option.none),
          ("tolerance", .mk .float
            (.rangeFloat (Option.some PyFloat.zero) Option.none)
            Option.none)])
        (JsonObj.ofList [("gamma", .float (.fin (mkRat 1 2))),
          ("pre_mult", .float pm),
          ("max_relative_change", .float mrc),
          ("tolerance", .float tol)]) =
        .ok (JsonObj.ofList [("gamma", .float (.fin (mkRat 1 2))),
          ("pre_mult", .float pm),
          ("max_relative_change", .float mrc),
          ("tolerance", .float tol)], .nil) :=
      runChildren_cons_ok _ _ _ _ _ _ _ _
        (float_node_ok 0 _ _ (.fin (mkRat 1 2)) hgd) r4
    have r2 : runChildren (deserializeNodeF 1)
        (SchemaChildren.ofList [
          ("num_steps_averaged", .mk .int
            (.rangeInt (Option.some 0) Option.none) Option.none),
          ("gamma", .mk .float
            (.rangeFloat (Option.some PyFloat.zero) Option.none)
            Option.none),
          ("pre_mult", .mk .float
            (.rangeFloat (Option.some PyFloat.zero) Option.none)
            Option.none),
          ("max_relative_change", .mk .float
            (.rangeFloat (Option.some PyFloat.zero) (Option.some (.fin 1)))
            Option.none),
          ("tolerance", .mk .float
            (.rangeFloat (Option.some PyFloat.zero) Option.none)
            Option.none)])
        (JsonObj.ofList [("num_steps_averaged", .int avg),
          ("gamma", .float (.fin (mkRat 1 2))),
          ("pre_mult", .float pm),
          ("max_relative_change", .float mrc),
          ("tolerance", .float tol)]) =
        .ok (JsonObj.ofList [("num_steps_averaged", .int avg),
          ("gamma", .float (.fin (mkRat 1 2))),
          ("pre_mult", .float pm),
          ("max_relative_change", .float mrc),
          ("tolerance", .float tol)], .nil) :=
      runChildren_cons_ok _ _ _ _ _ _ _ _ (int_node_ok 0 _ _ avg h3) r3
    have r1 : runChildren (deserializeNodeF 1)
        (SchemaChildren.ofList [
          ("max_num_restarts", .mk .int
            (.rangeInt (Option.some 1) Option.none) Option.none),
          ("num_steps_averaged", .mk .int
            (.rangeInt (Option.some 0) Option.none) Option.none),
          ("gamma", .mk .float
            (.rangeFloat (Option.some PyFloat.zero) Option.none)
            Option.none),
          ("pre_mult", .mk .float
            (.rangeFloat (Option.some PyFloat.zero) Option.none)
            Option.none),
          ("max_relative_change", .mk .float
            (.rangeFloat (Option.some PyFloat.zero) (Option.some (.fin 1)))
            Option.none),
          ("tolerance", .mk .float
            (.rangeFloat (Option.some PyFloat.zero) Option.none)
            Option.none)])
        (JsonObj.ofList [("max_num_restarts", .int restarts),
          ("num_steps_averaged", .int avg),
          ("gamma", .float (.fin (mkRat 1 2))),
          ("pre_mult", .float pm),
          ("max_relative_change", .float mrc),
          ("tolerance", .float tol)]) =
        .ok (JsonObj.ofList [("max_num_restarts", .int restarts),
          ("num_steps_averaged", .int avg),
          ("gamma", .float (.fin (mkRat 1 2))),
          ("pre_mult", .float pm),
          ("max_relative_change", .float mrc),
          ("tolerance", .float tol)], .nil) :=
      runChildren_cons_ok _ _ _ _ _ _ _ _ (int_node_ok 0 _ _ restarts h2) r2
    have r0 : runChildren (deserializeNodeF
        (SchemaChildren.ofList [
          ("max_num_steps", SchemaNode.mk .int
            (.rangeInt (Option.some 1) Option.none) Option.none),
          ("max_num_restarts", SchemaNode.mk .int
            (.rangeInt (Option.some 1) Option.none) Option.none),
          ("num_steps_averaged", SchemaNode.mk .int
            (.rangeInt (Option.some 0) Option.none) Option.none),
          ("gamma", SchemaNode.mk .float
            (.rangeFloat (Option.some PyFloat.zero) Option.none)
            Option.none),
          ("pre_mult", SchemaNode.mk .float
            (.rangeFloat (Option.some PyFloat.zero) Option.none)
            Option.none),
          ("max_relative_change", SchemaNode.mk .float
            (.rangeFloat (Option.some PyFloat.zero) (Option.some (.fin 1)))
            Option.none),
          ("tolerance", SchemaNode.mk .float
            (.rangeFloat (Option.some PyFloat.zero) Option.none)
            Option.none)]).depth)
        (SchemaChildren.ofList [
          ("max_num_steps", .mk .int
            (.rangeInt (Option.some 1) Option.none) Option.none),
          ("max_num_restarts", .mk .int
            (.rangeInt (Option.some 1) Option.none) Option.none),
          ("num_steps_averaged", .mk .int
            (.rangeInt (Option.some 0) Option.none) Option.none),
          ("gamma", .mk .float
            (.rangeFloat (Option.some PyFloat.zero) Option.none)
            Option.none),
          ("pre_mult", .mk .float
            (.rangeFloat (Option.some PyFloat.zero) Option.none)
            Option.none),
          ("max_relative_change", .mk .float
            (.rangeFloat (Option.some PyFloat.zero) (Option.some (.fin 1)))
            Option.none),
          ("tolerance", .mk .float
            (.rangeFloat (Option.some PyFloat.zero) Option.none)
            Option.none)])
        (toDict (JsonObj.ofList [("max_num_steps", .int steps),
          ("max_num_restarts", .int restarts),
          ("num_steps_averaged", .int avg),
          ("gamma", .float (.fin (mkRat 1 2))),
          ("pre_mult", .float pm),
          ("max_relative_change", .float mrc),
          ("tolerance", .float tol)])) =
        .ok (JsonObj.ofList [("max_num_steps", .int steps),
          ("max_num_restarts", .int restarts),
          ("num_steps_averaged", .int avg),
          ("gamma", .float (.fin (mkRat 1 2))),
          ("pre_mult", .float pm),
          ("max_relative_change", .float mrc),
          ("tolerance", .float tol)], .nil) :=
      runChildren_cons_ok _ _ _ _ _ _ _ _ (int_node_ok 0 _ _ steps h1) r1
    rw [show deserializeNode GradientDescentParametersSchema
        (Option.some (jobj [
          ("max_num_steps", .int steps),
          ("max_num_restarts", .int restarts),
          ("num_steps_averaged", .int avg),
          ("gamma", .float (.fin (mkRat 1 2))),
          ("pre_mult", .float pm),
          ("max_relative_change", .float mrc),
          ("tolerance", .float tol)])) = _
      from deserializeNode_strict_eq _ _ _ _, r0]
    rfl
  · intro steps tf mrc tol h1 h2 h3 h4
    have r2 : runChildren (deserializeNodeF 1)
        (SchemaChildren.ofList [
          ("gamma", .mk .float
            (.rangeFloat (Option.some (.fin 1)) Option.none) Option.none),
          ("time_factor", .mk .float
            (.rangeFloat (Option.some (.fin (mkRat 1 (10 ^ 16))))
              Option.none) Option.none),
          ("max_relative_change", .mk .float
            (.rangeFloat (Option.some PyFloat.zero) (Option.some (.fin 1)))
            Option.none),
          ("tolerance", .mk .float
            (.rangeFloat (Option.some PyFloat.zero) Option.none)
            Option.none)])
        (JsonObj.ofList [("gamma", .float (.fin (mkRat 1 2))),
          ("time_factor", .float tf),
          ("max_relative_change", .float mrc),
          ("tolerance", .float tol)]) = .error .invalid :=
      runChildren_cons_err _ _ _ _ _
        (float_node_fail 0 _ _ (.fin (mkRat 1 2)) hng)
    have r1 : runChildren (deserializeNodeF
        (SchemaChildren.ofList [
          ("max_num_steps", SchemaNode.mk .int
            (.rangeInt (Option.some 1) Option.none) Option.none),
          ("gamma", SchemaNode.mk .float
            (.rangeFloat (Option.some (.fin 1)) Option.none) Option.none),
          ("time_factor", SchemaNode.mk .float
            (.rangeFloat (Option.some (.fin (mkRat 1 (10 ^ 16))))
              Option.none) Option.none),
          ("max_relative_change", SchemaNode.mk .float
            (.rangeFloat (Option.some PyFloat.zero) (Option.some (.fin 1)))
            Option.none),
          ("tolerance", SchemaNode.mk .float
            (.rangeFloat (Option.some PyFloat.zero) Option.none)
            Option.none)]).depth)
        (SchemaChildren.ofList [
          ("max_num_steps", .mk .int
            (.rangeInt (Option.some 1) Option.none) Option.none),
          ("gamma", .mk .float
            (.rangeFloat (Option.some (.fin 1)) Option.none) Option.none),
          ("time_factor", .mk .float
            (.rangeFloat (Option.some (.fin (mkRat 1 (10 ^ 16))))
              Option.none) Option.none),
          ("max_relative_change", .mk .float
            (.rangeFloat (Option.some PyFloat.zero) (Option.some (.fin 1)))
            Option.none),
          ("tolerance", .mk .float
            (.rangeFloat (Option.some PyFloat.zero) Option.none)
            Option.none)])
        (toDict (JsonObj.ofList [("max_num_steps", .int steps),
          ("gamma", .float (.fin (mkRat 1 2))),
          ("time_factor", .float tf),
          ("max_relative_change", .float mrc),
          ("tolerance", .float tol)])) = .error .invalid :=
      runChildren_cons_ok_err _ _ _ _ _ _ (int_node_ok 0 _ _ steps h1) r2
    rw [show deserializeNode NewtonParametersSchema (Option.some (jobj [
          ("max_num_steps", .int steps),
          ("gamma", .float (.fin (mkRat 1 2))),
          ("time_factor", .float tf),
          ("max_relative_change", .float mrc),
          ("tolerance", .float tol)])) = _
      from deserializeNode_strict_eq _ _ _ _, r1]
    rfl

/-- C3 witness: the theorem applied with all other fields at concrete
in-range values. -/
theorem C3_witness :
    deserializeNode GradientDescentParametersSchema (Option.some (jobj [
        ("max_num_steps", .int 1),
        ("max_num_restarts", .int 1),
        ("num_steps_averaged", .int 0),
        ("gamma", .float (.fin (mkRat 1 2))),
        ("pre_mult", .float (.fin 1)),
        ("max_relative_change", .float (.fin 1)),
        ("tolerance", .float (.fin 0))])) =
      .ok (jobj [
        ("max_num_steps", .int 1),
        ("max_num_restarts", .int 1),
        ("num_steps_averaged", .int 0),
        ("gamma", .float (.fin (mkRat 1 2))),
        ("pre_mult", .float (.fin 1)),
        ("max_relative_change", .float (.fin 1)),
        ("tolerance", .float (.fin 0))])
    ∧ isOk (deserializeNode NewtonParametersSchema (Option.some (jobj [
        ("max_num_steps", .int 1),
        ("gamma", .float (.fin (mkRat 1 2))),
        ("time_factor", .float (.fin 1)),
        ("max_relative_change", .float (.fin 1)),
        ("tolerance", .float (.fin 0))]))) = false :=
  ⟨C3_newton_vs_gradient_descent_gamma.1 1 1 0 (.fin 1) (.fin 1) (.fin 0)
      rfl rfl rfl rfl rfl rfl,
    C3_newton_vs_gradient_descent_gamma.2.1 1 (.fin 1) (.fin 1) (.fin 0)
      rfl rfl rfl rfl⟩

/-- C8: the composed `gp_mean_var` response schema declares exactly
`{endpoint, mean, var}` — the concatenation of its composed parts' fields,
duplicate-free — and a mapping it accepts has exactly those keys (a valid
example body is accepted). -/
theorem C8_gp_mean_var_response_field_set :
    strictNames GpMeanVarResponse = ["endpoint", "mean", "var"]
    ∧ strictNames GpMeanVarResponse =
        (GpMeanResponseFields ++ GpVarMixinResponseFields).map Prod.fst
    ∧ listNodup (strictNames GpMeanVarResponse) = true
    ∧ (∀ (l : JsonObj) (k : String),
        isOk (deserializeNode GpMeanVarResponse
          (Option.some (.obj l))) = true →
        ((toDict l).hasKey k = true ↔
          (k = "endpoint" ∨ k = "mean" ∨ k = "var")))
    ∧ isOk (deserializeNode GpMeanVarResponse
        (Option.some gpMeanVarResponseExample)) = true := by
  refine ⟨rfl, rfl, rfl, ?_, rfl⟩
  intro l k hsucc
  constructor
  · intro hk
    by_contra hmem
    have hnot : k ∉ strictNames GpMeanVarResponse := by
      intro hc
      apply hmem
      simpa [strictNames, GpMeanVarResponse, strictOf, GpMeanResponseFields,
        GpEndpointResponseFields, GpMeanMixinResponseFields,
        GpVarMixinResponseFields, SchemaChildren.ofList,
        SchemaChildren.names] using hc
    have hfail : isOk (deserializeNode GpMeanVarResponse
        (Option.some (.obj l))) = false :=
      strict_unknown_key_fails _ _ _ l k hk
        ((listHasStr_false_iff _ _).mpr hnot)
    rw [hsucc] at hfail
    cases hfail
  · intro hmem
    by_contra hk
    have hk2 : (toDict l).hasKey k = false := by
      cases h : (toDict l).hasKey k
      · rfl
      · exact absurd h hk
    rcases hmem with rfl | rfl | rfl
    · have hfail : isOk (deserializeNode GpMeanVarResponse
          (Option.some (.obj l))) = false :=
        strict_required_key_fails _ _ _ l "endpoint"
          (.mk .str .noValidator Option.none) rfl rfl hk2
      rw [hsucc] at hfail
      cases hfail
    · have hfail : isOk (deserializeNode GpMeanVarResponse
          (Option.some (.obj l))) = false :=
        strict_required_key_fails _ _ _ l "mean" ListOfFloats rfl rfl hk2
      rw [hsucc] at hfail
      cases hfail
    · have hfail : isOk (deserializeNode GpMeanVarResponse
          (Option.some (.obj l))) = false :=
        strict_required_key_fails _ _ _ l "var" MatrixOfFloats rfl rfl hk2
      rw [hsucc] at hfail
      cases hfail

/-- C8 witness: the key-set direction of the theorem applied to the example
body. -/
theorem C8_witness :
    (toDict gpMeanVarResponseExampleEntries).hasKey "mean" = true :=
  (C8_gp_mean_var_response_field_set.2.2.2.1 gpMeanVarResponseExampleEntries
    "mean" rfl).mpr (Or.inr (Or.inl rfl))

/-! Second-pass (idempotence) machinery for C7.  The hypothesis `hf` threads
the fuel-level induction hypothesis through the list lemmas. -/

theorem exceptMap_second
    (f : SchemaNode → Option JsonValue → Except Err JsonValue)
    (g : SchemaNode → Bool)
    (hf : ∀ (n : SchemaNode) (ox : Option JsonValue) (y z : JsonValue),
      g n = true → f n ox = .ok y → f n (Option.some y) = .ok z → z = y)
    (elem : SchemaNode) (he : g elem = true) :
    ∀ (xs ys zs : JsonList),
      exceptMap (fun x => f elem (Option.some x)) xs = .ok ys →
      exceptMap (fun x => f elem (Option.some x)) ys = .ok zs →
      zs = ys := by
  intro xs
  induction xs using JsonList.listInduction with
  | nil =>
    intro ys zs h1 h2
    rw [exceptMap] at h1
    cases h1
    rw [exceptMap] at h2
    cases h2
    rfl
  | cons x xs ih =>
    intro ys zs h1 h2
    rw [exceptMap] at h1
    cases hx : f elem (Option.some x) with
    | error e => rw [hx] at h1; cases h1
    | ok y =>
      rw [hx] at h1
      cases hxs : exceptMap (fun x => f elem (Option.some x)) xs with
      | error e => rw [hxs] at h1; cases h1
      | ok ys1 =>
        rw [hxs] at h1
        cases h1
        rw [exceptMap] at h2
        cases hy : f elem (Option.some y) with
        | error e => rw [hy] at h2; cases h2
        | ok z1 =>
          rw [hy] at h2
          cases hys : exceptMap (fun x => f elem (Option.some x)) ys1 with
          | error e => rw [hys] at h2; cases h2
          | ok zs1 =>
            rw [hys] at h2
            cases h2
            rw [hf elem (Option.some x) y z1 he hx hy, ih ys1 zs1 hxs hys]

theorem runChildren_second
    (f : SchemaNode → Option JsonValue → Except Err JsonValue)
    (g : SchemaNode → Bool)
    (hf : ∀ (n : SchemaNode) (ox : Option JsonValue) (y z : JsonValue),
      g n = true → f n ox = .ok y → f n (Option.some y) = .ok z → z = y) :
    ∀ (children : SchemaChildren)
      (d entries leftover entries2 leftover2 : JsonObj),
      stableChildrenWith g children = true →
      listNodup children.names = true →
      runChildren f children d = .ok (entries, leftover) →
      runChildren f children entries = .ok (entries2, leftover2) →
      entries2 = entries ∧ leftover2 = .nil := by
  intro children
  induction children using SchemaChildren.childrenInduction with
  | nil =>
    intro d entries leftover e2 l2 _ _ h1 h2
    rw [runChildren] at h1
    cases h1
    rw [runChildren] at h2
    cases h2
    exact ⟨rfl, rfl⟩
  | cons name child rest ih =>
    intro d entries leftover e2 l2 hst hnd h1 h2
    simp only [stableChildrenWith, Bool.and_eq_true] at hst
    simp only [SchemaChildren.names, listNodup, Bool.and_eq_true] at hnd
    rw [runChildren] at h1
    cases hc1 : f child (d.get name) with
    | error e => rw [hc1] at h1; cases h1
    | ok w =>
      rw [hc1] at h1
      cases hr1 : runChildren f rest (d.removeKey name) with
      | error e => rw [hr1] at h1; cases h1
      | ok p =>
        obtain ⟨entries1, leftover1⟩ := p
        rw [hr1] at h1
        cases h1
        have hkeys : entries1.keys = rest.names :=
          runChildren_ok_names f rest _ _ _ hr1
        have hhk : entries1.hasKey name = false := by
          rw [JsonObj.hasKey_eq_keys, hkeys]
          simpa using hnd.1
        rw [runChildren,
          show (JsonObj.cons name w entries1).get name = Option.some w by
            simp [JsonObj.get]] at h2
        cases hc2 : f child (Option.some w) with
        | error e => rw [hc2] at h2; cases h2
        | ok w2 =>
          rw [hc2,
            show (JsonObj.cons name w entries1).removeKey name = entries1 by
              simp [JsonObj.removeKey,
                JsonObj.removeKey_of_hasKey_false entries1 name hhk]] at h2
          cases hr2 : runChildren f rest entries1 with
          | error e => rw [hr2] at h2; cases h2
          | ok p2 =>
            obtain ⟨entries3, leftover3⟩ := p2
            rw [hr2] at h2
            cases h2
            obtain ⟨he3, hl3⟩ := ih _ _ _ _ _ hst.2 hnd.2 hr1 hr2
            rw [hf child (d.get name) w w2 hst.1 hc1 hc2, he3, hl3]
            exact ⟨rfl, rfl⟩

theorem null_typ_eq
    (f : SchemaNode → Option JsonValue → Except Err JsonValue)
    (t : SchemaType) :
    deserializeTypeF f t Option.none = .ok Option.none := rfl

theorem int_typ_eq
    (f : SchemaNode → Option JsonValue → Except Err JsonValue)
    (v : JsonValue) :
    deserializeTypeF f .int (Option.some v) =
      if !v.eqZero && v.falsy then .ok Option.none
      else
        match v with
        | .int n => .ok (Option.some (.int n))
        | .bool b => .ok (Option.some (.int (if b then 1 else 0)))
        | .float (.fin q) =>
            .ok (Option.some (.int (if q < 0 then ⌈q⌉ else ⌊q⌋)))
        | _ => .error .invalid := by
  cases v with
  | float x => cases x <;> rfl
  | _ => rfl

theorem float_typ_eq
    (f : SchemaNode → Option JsonValue → Except Err JsonValue)
    (v : JsonValue) :
    deserializeTypeF f .float (Option.some v) =
      if !v.eqZero && v.falsy then .ok Option.none
      else
        match v with
        | .float x => .ok (Option.some (.float x))
        | .int n => .ok (Option.some (.float (.fin n)))
        | .bool b => .ok (Option.some (.float (.fin (if b then 1 else 0))))
        | _ => .error .invalid := by
  cases v <;> rfl

theorem str_typ_eq
    (f : SchemaNode → Option JsonValue → Except Err JsonValue)
    (v : JsonValue) :
    deserializeTypeF f .str (Option.some v) =
      if v.falsy then .ok Option.none
      else
        match v with
        | .str s => .ok (Option.some (.str s))
        | _ => .error .invalid := by
  cases v <;> rfl

theorem preserve_typ_eq
    (f : SchemaNode → Option JsonValue → Except Err JsonValue)
    (v : JsonValue) :
    deserializeTypeF f .mappingPreserveFree (Option.some v) =
      match v with
      | .obj l => .ok (Option.some (.obj (toDict l)))
      | _ => .error .invalid := by
  cases v <;> rfl

theorem seq_typ_eq
    (f : SchemaNode → Option JsonValue → Except Err JsonValue)
    (elem : SchemaNode) (v : JsonValue) :
    deserializeTypeF f (.seq elem) (Option.some v) =
      match v with
      | .arr xs =>
        (match exceptMap (fun x => f elem (Option.some x)) xs with
         | .error e => .error e
         | .ok ys => .ok (Option.some (.arr ys)))
      | _ => .error .invalid := by
  cases v <;> rfl

theorem strict_typ_eq
    (f : SchemaNode → Option JsonValue → Except Err JsonValue)
    (children : SchemaChildren) (v : JsonValue) :
    deserializeTypeF f (.strictMapping children) (Option.some v) =
      match v with
      | .obj l =>
        (match runChildren f children (toDict l) with
         | .error e => .error e
         | .ok (entries, leftover) =>
           if leftover.isEmpty then .ok (Option.some (.obj entries))
           else .error .invalid)
      | _ => .error .invalid := by
  cases v <;> rfl

theorem int_typ_fix
    (f : SchemaNode → Option JsonValue → Except Err JsonValue) (m : Int) :
    deserializeTypeF f .int (Option.some (.int m)) =
      .ok (Option.some (.int m)) := by
  simp [deserializeTypeF, JsonValue.eqZero, JsonValue.falsy, Bool.not_and_self]

theorem float_typ_fix
    (f : SchemaNode → Option JsonValue → Except Err JsonValue) (x : PyFloat) :
    deserializeTypeF f .float (Option.some (.float x)) =
      .ok (Option.some (.float x)) := by
  simp [deserializeTypeF, JsonValue.eqZero, JsonValue.falsy, Bool.not_and_self]

theorem typ_second
    (f : SchemaNode → Option JsonValue → Except Err JsonValue)
    (g : SchemaNode → Bool)
    (hf : ∀ (n : SchemaNode) (ox : Option JsonValue) (y z : JsonValue),
      g n = true → f n ox = .ok y → f n (Option.some y) = .ok z → z = y)
    (t : SchemaType) (hty : stableTypeWith g t = true) (v a : JsonValue)
    (h : deserializeTypeF f t (Option.some v) = .ok (Option.some a))
    (r : Option JsonValue)
    (h2 : deserializeTypeF f t (Option.some a) = .ok r) :
    r = Option.some a := by
  cases t with
  | int =>
    obtain ⟨m, rfl⟩ : ∃ m : Int, a = .int m := by
      rw [int_typ_eq] at h
      by_cases hg : (!v.eqZero && v.falsy) = true
      · rw [if_pos hg] at h; simp at h
      · rw [if_neg hg] at h
        split at h
        · cases h; exact ⟨_, rfl⟩
        · cases h; exact ⟨_, rfl⟩
        · cases h; exact ⟨_, rfl⟩
        · cases h
    rw [int_typ_fix] at h2
    cases h2
    rfl
  | float =>
    obtain ⟨x, rfl⟩ : ∃ x : PyFloat, a = .float x := by
      rw [float_typ_eq] at h
      by_cases hg : (!v.eqZero && v.falsy) = true
      · rw [if_pos hg] at h; simp at h
      · rw [if_neg hg] at h
        split at h
        · cases h; exact ⟨_, rfl⟩
        · cases h; exact ⟨_, rfl⟩
        · cases h; exact ⟨_, rfl⟩
        · cases h
    rw [float_typ_fix] at h2
    cases h2
    rfl
  | str =>
    rw [str_typ_eq] at h
    by_cases hg : v.falsy = true
    · rw [if_pos hg] at h; simp at h
    · rw [if_neg hg] at h
      split at h
      · cases h
        rw [str_typ_eq, if_neg (by simpa using hg)] at h2
        cases h2
        rfl
      · cases h
  | mappingPreserveFree =>
    rw [preserve_typ_eq] at h
    split at h
    · cases h
      rw [preserve_typ_eq] at h2
      simp only [] at h2
      rw [toDict_idem] at h2
      cases h2
      rfl
    · cases h
  | seq elem =>
    simp only [stableTypeWith] at hty
    rw [seq_typ_eq] at h
    split at h
    · rename_i xs
      cases hm : exceptMap (fun x => f elem (Option.some x)) xs with
      | error e => rw [hm] at h; cases h
      | ok ys =>
        rw [hm] at h
        cases h
        rw [seq_typ_eq] at h2
        simp only [] at h2
        cases hm2 : exceptMap (fun x => f elem (Option.some x)) ys with
        | error e => rw [hm2] at h2; cases h2
        | ok zs =>
          rw [hm2] at h2
          obtain rfl : zs = ys :=
            exceptMap_second f g hf elem hty xs ys zs hm hm2
          cases h2
          rfl
    · cases h
  | strictMapping children =>
    simp only [stableTypeWith, Bool.and_eq_true] at hty
    rw [strict_typ_eq] at h
    split at h
    · rename_i l
      cases hr : runChildren f children (toDict l) with
      | error e => rw [hr] at h; cases h
      | ok p =>
        obtain ⟨entries, leftover⟩ := p
        rw [hr] at h
        simp only [] at h
        by_cases hle : leftover.isEmpty = true
        · rw [if_pos hle] at h
          cases h
          rw [strict_typ_eq] at h2
          simp only [] at h2
          have hkeys : entries.keys = children.names :=
            runChildren_ok_names f children _ _ _ hr
          have hknd : keysNodup entries = true := by
            rw [keysNodup_eq_listNodup, hkeys]
            exact hty.1
          rw [toDict_of_keysNodup entries hknd] at h2
          cases hr2 : runChildren f children entries with
          | error e => rw [hr2] at h2; cases h2
          | ok p2 =>
            obtain ⟨e2, l2⟩ := p2
            rw [hr2] at h2
            obtain ⟨he2, hl2⟩ := runChildren_second f g hf children
              (toDict l) entries leftover e2 l2 hty.2 hty.1 hr hr2
            rw [he2, hl2] at h2
            have h2x : (Except.ok (Option.some (JsonValue.obj entries)) :
                Except Err (Option JsonValue)) = Except.ok r := h2
            cases h2x
            rfl
        · rw [if_neg hle] at h; cases h
    · cases h

theorem nodeF_succ_eq (fuel : Nat) (t : SchemaType) (valr : Validator)
    (miss : Option JsonValue) (cstruct : Option JsonValue) :
    deserializeNodeF (fuel + 1) (.mk t valr miss) cstruct =
      match deserializeTypeF (deserializeNodeF fuel) t cstruct with
      | .error e => .error e
      | .ok Option.none =>
        (match miss with
         | Option.some d => .ok d
         | Option.none => .error .invalid)
      | .ok (Option.some a) =>
          if valr.run a then .ok a else .error .invalid := rfl

theorem deserialize_stable_second :
    ∀ (fuel : Nat) (n : SchemaNode) (ox : Option JsonValue)
      (y z : JsonValue),
      stableNodeF fuel n = true →
      deserializeNodeF fuel n ox = .ok y →
      deserializeNodeF fuel n (Option.some y) = .ok z →
      z = y := by
  intro fuel
  induction fuel with
  | zero =>
    intro n ox y z _ h1 _
    rw [deserializeNodeF] at h1
    cases h1
  | succ fuel ih =>
    intro n ox y z hst h1 h2
    obtain ⟨t, valr, miss⟩ := n
    rw [stableNodeF, Bool.and_eq_true] at hst
    obtain ⟨hdef, hty⟩ := hst
    rw [nodeF_succ_eq] at h1
    cases ht1 : deserializeTypeF (deserializeNodeF fuel) t ox with
    | error e => rw [ht1] at h1; cases h1
    | ok oa =>
      rw [ht1] at h1
      cases oa with
      | none =>
        simp only [] at h1
        cases hm : miss with
        | none => rw [hm] at h1; cases h1
        | some d =>
          rw [hm] at h1
          cases h1
          rw [hm] at hdef h2
          rw [defaultOkF, h2] at hdef
          simpa using hdef
      | some a =>
        simp only [] at h1
        by_cases hv : valr.run a = true
        · rw [if_pos hv] at h1
          cases h1
          cases ox with
          | none => rw [null_typ_eq] at ht1; cases ht1
          | some v =>
            rw [nodeF_succ_eq] at h2
            cases ht2 : deserializeTypeF (deserializeNodeF fuel) t
                (Option.some y) with
            | error e => rw [ht2] at h2; cases h2
            | ok r =>
              rw [ht2] at h2
              obtain rfl : r = Option.some y :=
                typ_second (deserializeNodeF fuel) (stableNodeF fuel) ih t
                  hty v y ht1 r ht2
              simp only [] at h2
              rw [if_pos hv] at h2
              cases h2
              rfl
        · rw [if_neg hv] at h1; cases h1

/-- C7 counterexample: the spec's minimal `gp_ei` request is accepted, but
re-deserializing its normalized output fails (the defaulted
`covariance_info.hyperparameters = None` sentinel is not re-accepted by the
sequence-typed node), so validation is not idempotent as claimed. -/
theorem C7_counterexample :
    deserializeNode GpEiRequest (Option.some minimalGpEiRequest) =
        .ok minimalGpEiNormalized
    ∧ isOk (deserializeNode GpEiRequest
        (Option.some minimalGpEiNormalized)) = false :=
  ⟨rfl, rfl⟩

/-- C7 amended: re-deserializing the normalized output of a request schema
can fail (a `None` sentinel defaulted for a sequence- or mapping-typed field
is not re-accepted); whenever it does succeed it returns the identical
structure. -/
theorem C7_amended_revalidation_identical :
    ∀ s ∈ requestSchemas, ∀ (x y z : JsonValue),
      deserializeNode s (Option.some x) = .ok y →
      deserializeNode s (Option.some y) = .ok z →
      z = y := by
  intro s hs x y z h1 h2
  have hst : stableNodeF s.depth s = true := by
    fin_cases hs <;> rfl
  exact deserialize_stable_second s.depth s (Option.some x) y z hst h1 h2

/-- C7 witness: the amended theorem applied to a `gp_mean_var` request whose
optional members are explicit, so its normalized output re-validates. -/
theorem C7_amended_witness :
    gpMeanVarExplicitNormalized = gpMeanVarExplicitNormalized :=
  C7_amended_revalidation_identical GpMeanVarRequest
    (by simp [requestSchemas]) gpMeanVarExplicit gpMeanVarExplicitNormalized
    gpMeanVarExplicitNormalized rfl rfl

end Moe
